import Mathlib

/-!
Shallow embedding of Blender's attribute-access layer
(`source/blender/blenkernel/intern/attribute_access.cc`).

Geometry data is stored in domain-partitioned, tagged custom-data column
stores.  Attribute handles are transient views over one of four physical
backing kinds: a generic typed column (`ArrayRead/WriteAttribute`), a
derived projection out of a record array (`DerivedArray*Attribute`, used
for the built-in "Position"), a sparse per-vertex weight list
(`VertexWeight*Attribute`), or a single constant value
(`ConstantReadAttribute`).

The code never performs floating-point arithmetic on attribute values: it
only copies them, compares type tags, and uses the literal `0.0f` as the
default weight.  Float values are therefore modelled by an abstract
integer carrier `F`, which is faithful for every copy/equality/zero
observation the source makes.
-/

namespace BlenderSpec

/-- Carrier for `float` values; the source only copies floats and uses the
constant `0.0f`, so any type with a distinguished zero and decidable
equality models them faithfully. -/
abbrev F := Int

/-- The element types with a `CPPType` mapping in this file
(`CPPType::get<float>()` etc.). -/
inductive CPPType
  | float
  | float2
  | float3
  | int
  | color4f
deriving DecidableEq, Repr

/-- Custom-data type tags.  The five `CD_PROP_*` tags are the ones this
file supports; `other` stands for every remaining tag of the `CustomDataType`
enum (the switches in the source fall through on those). -/
inductive CDType
  | CD_PROP_FLOAT
  | CD_PROP_FLOAT2
  | CD_PROP_FLOAT3
  | CD_PROP_INT32
  | CD_PROP_COLOR
  | other (tag : Nat)
deriving DecidableEq, Repr

/-- Attribute values of the supported element types. -/
inductive Value
  | vfloat (x : F)
  | vfloat2 (x y : F)
  | vfloat3 (x y z : F)
  | vint (n : Int)
  | vcolor (r g b a : F)
deriving DecidableEq, Repr

/-- The `CPPType` a value carries. -/
def Value.cpp_type : Value → CPPType
  | .vfloat _ => .float
  | .vfloat2 _ _ => .float2
  | .vfloat3 _ _ _ => .float3
  | .vint _ => .int
  | .vcolor _ _ _ _ => .color4f

/-- `custom_data_type_to_cpp_type`: maps a custom-data tag to its element
type; `nullptr` (here `none`) on every other tag. -/
def custom_data_type_to_cpp_type : CDType → Option CPPType
  | .CD_PROP_FLOAT => some .float
  | .CD_PROP_FLOAT2 => some .float2
  | .CD_PROP_FLOAT3 => some .float3
  | .CD_PROP_INT32 => some .int
  | .CD_PROP_COLOR => some .color4f
  | .other _ => none

/-- `cpp_type_to_custom_data_type`. -/
def cpp_type_to_custom_data_type : CPPType → CDType
  | .float => .CD_PROP_FLOAT
  | .float2 => .CD_PROP_FLOAT2
  | .float3 => .CD_PROP_FLOAT3
  | .int => .CD_PROP_INT32
  | .color4f => .CD_PROP_COLOR

/-- The `ELEM(data_type, CD_PROP_FLOAT, ..., CD_PROP_COLOR)` check used by
both components' `attribute_domain_with_type_supported`. -/
def custom_data_type_supported (data_type : CDType) : Bool :=
  match data_type with
  | .CD_PROP_FLOAT | .CD_PROP_FLOAT2 | .CD_PROP_FLOAT3
  | .CD_PROP_INT32 | .CD_PROP_COLOR => true
  | .other _ => false

/-- Default (zero-initialized) element for a supported custom-data tag,
as produced by `CustomData_add_layer_named` with `CD_DEFAULT`. -/
def custom_data_default_value : CDType → Value
  | .CD_PROP_FLOAT => .vfloat 0
  | .CD_PROP_FLOAT2 => .vfloat2 0 0
  | .CD_PROP_FLOAT3 => .vfloat3 0 0 0
  | .CD_PROP_INT32 => .vint 0
  | .CD_PROP_COLOR => .vcolor 0 0 0 0
  | .other _ => .vint 0

/-- `AttributeDomain` tags (`ATTR_DOMAIN_*`). -/
inductive AttributeDomain
  | ATTR_DOMAIN_CORNER
  | ATTR_DOMAIN_POINT
  | ATTR_DOMAIN_VERTEX
  | ATTR_DOMAIN_EDGE
  | ATTR_DOMAIN_POLYGON
deriving DecidableEq, Repr

/-- One `CustomDataLayer`: a named, type-tagged column.  In the source the
data pointer is reinterpreted according to `type`; here the column is a
list of values. -/
structure CustomDataLayer where
  name : String
  type : CDType
  data : List Value
deriving DecidableEq, Repr

/-- A `CustomData` store: its layer array (`layers` / `totlayer`). -/
structure CustomData where
  layers : List CustomDataLayer
deriving DecidableEq, Repr

/-- `custom_data_has_layer_with_name`. -/
def custom_data_has_layer_with_name (custom_data : CustomData) (name : String) : Bool :=
  custom_data.layers.any (fun layer => layer.name = name)

/-- Modelled from the spec: `CustomData_add_layer_named` (custom-data layer
storage engine, not part of the sampled sources) — "allocates a new
zero/default-initialized column of the requested type sized to the domain's
element count", registered under the given name. -/
def CustomData_add_layer_named (custom_data : CustomData) (data_type : CDType)
    (size : Nat) (name : String) : CustomData :=
  ⟨custom_data.layers ++ [⟨name, data_type, List.replicate size (custom_data_default_value data_type)⟩]⟩

/-- One `MVert` vertex record; only the coordinate field `co` is accessed
by this file. -/
structure MVert where
  co : F × F × F
deriving DecidableEq, Repr

/-- One `MDeformWeight` entry of a sparse vertex weight list. -/
structure MDeformWeight where
  def_nr : Int
  weight : F
deriving DecidableEq, Repr

/-- One `MDeformVert`: a vertex's sparse list of `(group index, weight)`
entries (`dw` / `totweight`). -/
structure MDeformVert where
  dw : List MDeformWeight
deriving DecidableEq, Repr

/-- The linear scan of `VertexWeightWriteAttribute::get_internal`: first
entry whose `def_nr` matches yields its weight, otherwise `0.0f`. -/
def defvert_find_weight : List MDeformWeight → Int → F
  | [], _ => 0
  | w :: rest, dvert_index =>
      if w.def_nr = dvert_index then w.weight else defvert_find_weight rest dvert_index

/-- Modelled from the spec: `BKE_defvert_ensure_index` followed by the
weight store of `VertexWeightWriteAttribute::set_internal` — "`set(i, w)`
locates or allocates (grows) the matching entry in vertex `i`'s list and
overwrites its weight". -/
def defvert_ensure_index_set : List MDeformWeight → Int → F → List MDeformWeight
  | [], dvert_index, w => [⟨dvert_index, w⟩]
  | e :: rest, dvert_index, w =>
      if e.def_nr = dvert_index then { e with weight := w } :: rest
      else e :: defvert_ensure_index_set rest dvert_index w

/-- Modelled from the spec: `BKE_defvert_find_index` plus
`BKE_defvert_remove_group` (deform utilities, not part of the sampled
sources) — "removes that group's weight entry from every vertex's sparse
list"; a vertex with no entry for the group is left unchanged. -/
def defvert_remove_group : List MDeformWeight → Int → List MDeformWeight
  | [], _ => []
  | e :: rest, dvert_index =>
      if e.def_nr = dvert_index then rest else e :: defvert_remove_group rest dvert_index

/-- The `Mesh` fields this file accesses: element counts, the vertex
record array, the deform-vertex array, and the four domain column stores. -/
structure Mesh where
  totvert : Nat
  totedge : Nat
  totloop : Nat
  totpoly : Nat
  mvert : List MVert
  dvert : List MDeformVert
  vdata : CustomData
  edata : CustomData
  ldata : CustomData
  pdata : CustomData
deriving DecidableEq, Repr

/-- The `PointCloud` fields this file accesses. -/
structure PointCloud where
  totpoint : Nat
  pdata : CustomData
deriving DecidableEq, Repr

/-- The physical backing store of an attribute handle, one constructor per
concrete class of the source's attribute hierarchy:
`ArrayRead/WriteAttribute` (a generic typed column),
`DerivedArray*Attribute` over `MVert` with the position projections
(the only instantiation in this file), `VertexWeight*Attribute`, and
`ConstantReadAttribute`. -/
inductive AttrSource
  | arrayData (data : List Value)
  | derivedPosition (verts : List MVert)
  | vertexWeight (dverts : List MDeformVert) (dvert_index : Int)
  | constant (value : Value)
deriving DecidableEq, Repr

/-- An attribute handle: the `domain()`, `cpp_type()` and `size()` header
of `ReadAttribute`/`WriteAttribute` plus its backing store.  A
`WriteAttribute` is the same view with `set_internal` also meaningful
(in the source it is a subclass usable wherever a `ReadAttribute` is). -/
structure AttributeHandle where
  domain : AttributeDomain
  cpp_type : CPPType
  size : Nat
  source : AttrSource
deriving DecidableEq, Repr

abbrev ReadAttribute := AttributeHandle
abbrev WriteAttribute := AttributeHandle

/-- `get_internal(index)` of each concrete attribute class:
plain copy for a column, the position projection `float3(vert.co)` for the
derived attribute, the sparse scan with `0.0f` default for vertex weights,
and the stored value for a constant attribute.  Out-of-range indices are
undefined behavior in the source; the model returns the list default. -/
def AttributeHandle.get_internal (a : AttributeHandle) (index : Nat) : Value :=
  match a.source with
  | .arrayData data => data.getD index (.vint 0)
  | .derivedPosition verts =>
      let vert := verts.getD index ⟨(0, 0, 0)⟩
      .vfloat3 vert.co.1 vert.co.2.1 vert.co.2.2
  | .vertexWeight dverts dvert_index =>
      .vfloat (defvert_find_weight (dverts.getD index ⟨[]⟩).dw dvert_index)
  | .constant value => value

/-- `set_internal(index, value)` of each writable attribute class, as a
state transformer on the handle's view of its backing store: plain
assignment for a column, `copy_v3_v3(vert.co, co)` for the derived
position, ensure-then-overwrite for a vertex weight.  Passing a value of
the wrong element type is undefined behavior in the source (callers
type-check via `cpp_type()` first); the model leaves the store unchanged
then.  A constant attribute is read-only. -/
def AttributeHandle.set_internal (a : AttributeHandle) (index : Nat) (value : Value) :
    AttributeHandle :=
  match a.source with
  | .arrayData data => { a with source := .arrayData (data.set index value) }
  | .derivedPosition verts =>
      match value with
      | .vfloat3 x y z => { a with source := .derivedPosition (verts.set index ⟨(x, y, z)⟩) }
      | _ => a
  | .vertexWeight dverts dvert_index =>
      match value with
      | .vfloat w =>
          let dvert : MDeformVert := dverts.getD index ⟨[]⟩
          let dverts2 := dverts.set index ⟨defvert_ensure_index_set dvert.dw dvert_index w⟩
          { a with source := .vertexWeight dverts2 dvert_index }
      | _ => a
  | .constant _ => a

/-- The construction invariants every handle built by this file satisfies:
the backing store spans exactly `size` elements, and the header's element
type matches the concrete class (`float3` for the derived position,
`float` for vertex weights). -/
def AttributeHandle.wf (a : AttributeHandle) : Prop :=
  match a.source with
  | .arrayData data => data.length = a.size
  | .derivedPosition verts => verts.length = a.size ∧ a.cpp_type = .float3
  | .vertexWeight dverts _ => dverts.length = a.size ∧ a.cpp_type = .float
  | .constant value => value.cpp_type = a.cpp_type

/-- Whether the handle's backing kind supports `set_internal` (every kind
except the constant attribute). -/
def AttrSource.writable : AttrSource → Prop
  | .constant _ => False
  | _ => True

/-- Loop body of `read_attribute_from_custom_data`: scan the layer array
for the first layer whose name matches and whose type tag is one of the
five supported `CD_PROP_*` tags, and wrap its column as an
`ArrayReadAttribute` of the matching element type; a name-matching layer of
any other type is skipped (the `switch` falls through and the loop
continues). -/
def read_attribute_layers (size : Nat) (attribute_name : String)
    (domain : AttributeDomain) : List CustomDataLayer → Option ReadAttribute
  | [] => none
  | layer :: rest =>
      if layer.name = attribute_name then
        match custom_data_type_to_cpp_type layer.type with
        | some cpp => some ⟨domain, cpp, size, .arrayData layer.data⟩
        | none => read_attribute_layers size attribute_name domain rest
      else read_attribute_layers size attribute_name domain rest

/-- `read_attribute_from_custom_data`. -/
def read_attribute_from_custom_data (custom_data : CustomData) (size : Nat)
    (attribute_name : String) (domain : AttributeDomain) : Option ReadAttribute :=
  read_attribute_layers size attribute_name domain custom_data.layers

/-- Loop body of `write_attribute_from_custom_data`; identical scan, the
wrapper is an `ArrayWriteAttribute`. -/
def write_attribute_layers (size : Nat) (attribute_name : String)
    (domain : AttributeDomain) : List CustomDataLayer → Option WriteAttribute
  | [] => none
  | layer :: rest =>
      if layer.name = attribute_name then
        match custom_data_type_to_cpp_type layer.type with
        | some cpp => some ⟨domain, cpp, size, .arrayData layer.data⟩
        | none => write_attribute_layers size attribute_name domain rest
      else write_attribute_layers size attribute_name domain rest

/-- `write_attribute_from_custom_data`. -/
def write_attribute_from_custom_data (custom_data : CustomData) (size : Nat)
    (attribute_name : String) (domain : AttributeDomain) : Option WriteAttribute :=
  write_attribute_layers size attribute_name domain custom_data.layers

/-- Loop body of `delete_named_custom_data_layer`: remove the first layer
whose name matches (`CustomData_free_layer` at its index) and report
whether one was found. -/
def delete_named_layers (attribute_name : String) :
    List CustomDataLayer → List CustomDataLayer × Bool
  | [] => ([], false)
  | layer :: rest =>
      if layer.name = attribute_name then (rest, true)
      else
        let r := delete_named_layers attribute_name rest
        (layer :: r.1, r.2)

/-- `delete_named_custom_data_layer`: returns the updated store and
"true when the layer was found and is deleted" (the source's own comment). -/
def delete_named_custom_data_layer (custom_data : CustomData)
    (attribute_name : String) : CustomData × Bool :=
  let r := delete_named_layers attribute_name custom_data.layers
  (⟨r.1⟩, r.2)

/-- A `MeshComponent`: the owned mesh (null when absent) and the
vertex-group name registry `vertex_group_names_` (a map from group name to
group index, modelled as an association list with unique keys).
`get_for_write()` yields the mesh when present; the copy-on-write step it
performs in the source is owned by the external geometry-ownership
collaborator and has no observable effect at this layer. -/
structure MeshComponent where
  mesh : Option Mesh
  vertex_group_names : List (String × Int)
deriving DecidableEq, Repr

/-- A `PointCloudComponent`. -/
structure PointCloudComponent where
  pointcloud : Option PointCloud
deriving DecidableEq, Repr

/-- `Map::lookup_default(_as)`: the value registered under the key, or the
default when absent. -/
def map_lookup_default (entries : List (String × Int)) (key : String) (default : Int) : Int :=
  match entries.find? (fun p => p.1 = key) with
  | some p => p.2
  | none => default

/-- `Map::contains_as`. -/
def map_contains (entries : List (String × Int)) (key : String) : Bool :=
  entries.any (fun p => p.1 = key)

/-- `Map::remove_as`: drop the entry registered under the key. -/
def map_remove (entries : List (String × Int)) (key : String) : List (String × Int) :=
  entries.eraseP (fun p => p.1 = key)

/-! ### PointCloudComponent -/

/-- `PointCloudComponent::attribute_domain_supported`. -/
def PointCloudComponent.attribute_domain_supported (_c : PointCloudComponent)
    (domain : AttributeDomain) : Bool :=
  domain = .ATTR_DOMAIN_POINT

/-- `PointCloudComponent::attribute_domain_with_type_supported`. -/
def PointCloudComponent.attribute_domain_with_type_supported (_c : PointCloudComponent)
    (domain : AttributeDomain) (data_type : CDType) : Bool :=
  domain = .ATTR_DOMAIN_POINT && custom_data_type_supported data_type

/-- `PointCloudComponent::attribute_domain_size` (asserted to be called
with the point domain; 0 when the point cloud is absent). -/
def PointCloudComponent.attribute_domain_size (c : PointCloudComponent)
    (_domain : AttributeDomain) : Nat :=
  match c.pointcloud with
  | none => 0
  | some pointcloud => pointcloud.totpoint

/-- `PointCloudComponent::attribute_is_builtin`. -/
def PointCloudComponent.attribute_is_builtin (_c : PointCloudComponent)
    (attribute_name : String) : Bool :=
  attribute_name = "Position"

/-- `PointCloudComponent::attribute_try_get_for_read(name)`. -/
def PointCloudComponent.attribute_try_get_for_read (c : PointCloudComponent)
    (attribute_name : String) : Option ReadAttribute :=
  match c.pointcloud with
  | none => none
  | some pointcloud =>
      read_attribute_from_custom_data pointcloud.pdata pointcloud.totpoint attribute_name
        .ATTR_DOMAIN_POINT

/-- `PointCloudComponent::attribute_try_get_for_write(name)`. -/
def PointCloudComponent.attribute_try_get_for_write (c : PointCloudComponent)
    (attribute_name : String) : Option WriteAttribute :=
  match c.pointcloud with
  | none => none
  | some pointcloud =>
      write_attribute_from_custom_data pointcloud.pdata pointcloud.totpoint attribute_name
        .ATTR_DOMAIN_POINT

/-- `PointCloudComponent::attribute_try_delete(name)`.  Note that the
result of `delete_named_custom_data_layer` is discarded: once the name is
not built-in and the point cloud is present, the function returns `true`
whether or not a layer of that name existed. -/
def PointCloudComponent.attribute_try_delete (c : PointCloudComponent)
    (attribute_name : String) : PointCloudComponent × Bool :=
  if c.attribute_is_builtin attribute_name then (c, false)
  else
    match c.pointcloud with
    | none => (c, false)
    | some pointcloud =>
        let r := delete_named_custom_data_layer pointcloud.pdata attribute_name
        (⟨some { pointcloud with pdata := r.1 }⟩, true)

/-- `PointCloudComponent::attribute_try_create(name, domain, data_type)`. -/
def PointCloudComponent.attribute_try_create (c : PointCloudComponent)
    (attribute_name : String) (domain : AttributeDomain) (data_type : CDType) :
    PointCloudComponent × Bool :=
  if c.attribute_is_builtin attribute_name then (c, false)
  else if !c.attribute_domain_with_type_supported domain data_type then (c, false)
  else
    match c.pointcloud with
    | none => (c, false)
    | some pointcloud =>
        if custom_data_has_layer_with_name pointcloud.pdata attribute_name then (c, false)
        else
          let pdata2 :=
            CustomData_add_layer_named pointcloud.pdata data_type pointcloud.totpoint
              attribute_name
          (⟨some { pointcloud with pdata := pdata2 }⟩, true)

/-! ### MeshComponent -/

/-- `MeshComponent::attribute_domain_supported`. -/
def MeshComponent.attribute_domain_supported (_c : MeshComponent)
    (domain : AttributeDomain) : Bool :=
  match domain with
  | .ATTR_DOMAIN_CORNER | .ATTR_DOMAIN_VERTEX | .ATTR_DOMAIN_EDGE | .ATTR_DOMAIN_POLYGON => true
  | .ATTR_DOMAIN_POINT => false

/-- `MeshComponent::attribute_domain_with_type_supported`. -/
def MeshComponent.attribute_domain_with_type_supported (c : MeshComponent)
    (domain : AttributeDomain) (data_type : CDType) : Bool :=
  c.attribute_domain_supported domain && custom_data_type_supported data_type

/-- `MeshComponent::attribute_domain_size`. -/
def MeshComponent.attribute_domain_size (c : MeshComponent)
    (domain : AttributeDomain) : Nat :=
  match c.mesh with
  | none => 0
  | some mesh =>
      match domain with
      | .ATTR_DOMAIN_CORNER => mesh.totloop
      | .ATTR_DOMAIN_VERTEX => mesh.totvert
      | .ATTR_DOMAIN_EDGE => mesh.totedge
      | .ATTR_DOMAIN_POLYGON => mesh.totpoly
      | .ATTR_DOMAIN_POINT => 0

/-- `MeshComponent::attribute_is_builtin`. -/
def MeshComponent.attribute_is_builtin (_c : MeshComponent)
    (attribute_name : String) : Bool :=
  attribute_name = "Position"

/-- The derived read attribute built for the built-in "Position":
`DerivedArrayReadAttribute` over `Span(mesh->mvert, mesh->totvert)` with
the projection `float3(vert.co)`. -/
def mesh_position_attribute (mesh : Mesh) : AttributeHandle :=
  ⟨.ATTR_DOMAIN_VERTEX, .float3, mesh.totvert, .derivedPosition mesh.mvert⟩

/-- The vertex-weight attribute over `Span(mesh->dvert, mesh->totvert)`
for a given group index. -/
def mesh_vertex_weight_attribute (mesh : Mesh) (vertex_group_index : Int) : AttributeHandle :=
  ⟨.ATTR_DOMAIN_VERTEX, .float, mesh.totvert, .vertexWeight mesh.dvert vertex_group_index⟩

/-- `MeshComponent::attribute_try_get_for_read(name)`. -/
def MeshComponent.attribute_try_get_for_read (c : MeshComponent)
    (attribute_name : String) : Option ReadAttribute :=
  match c.mesh with
  | none => none
  | some mesh =>
      if attribute_name = "Position" then some (mesh_position_attribute mesh)
      else
        match read_attribute_from_custom_data mesh.ldata mesh.totloop attribute_name
            .ATTR_DOMAIN_CORNER with
        | some corner_attribute => some corner_attribute
        | none =>
            let vertex_group_index := map_lookup_default c.vertex_group_names attribute_name (-1)
            if 0 ≤ vertex_group_index then
              some (mesh_vertex_weight_attribute mesh vertex_group_index)
            else
              match read_attribute_from_custom_data mesh.vdata mesh.totvert attribute_name
                  .ATTR_DOMAIN_VERTEX with
              | some vertex_attribute => some vertex_attribute
              | none =>
                  match read_attribute_from_custom_data mesh.edata mesh.totedge attribute_name
                      .ATTR_DOMAIN_EDGE with
                  | some edge_attribute => some edge_attribute
                  | none =>
                      match read_attribute_from_custom_data mesh.pdata mesh.totpoly
                          attribute_name .ATTR_DOMAIN_POLYGON with
                      | some polygon_attribute => some polygon_attribute
                      | none => none

/-- `MeshComponent::attribute_try_get_for_write(name)`: same precedence as
the read path, with the write variants (the derived position write
attribute carries the `copy_v3_v3` injection). -/
def MeshComponent.attribute_try_get_for_write (c : MeshComponent)
    (attribute_name : String) : Option WriteAttribute :=
  match c.mesh with
  | none => none
  | some mesh =>
      if attribute_name = "Position" then some (mesh_position_attribute mesh)
      else
        match write_attribute_from_custom_data mesh.ldata mesh.totloop attribute_name
            .ATTR_DOMAIN_CORNER with
        | some corner_attribute => some corner_attribute
        | none =>
            let vertex_group_index := map_lookup_default c.vertex_group_names attribute_name (-1)
            if 0 ≤ vertex_group_index then
              some (mesh_vertex_weight_attribute mesh vertex_group_index)
            else
              match write_attribute_from_custom_data mesh.vdata mesh.totvert attribute_name
                  .ATTR_DOMAIN_VERTEX with
              | some vertex_attribute => some vertex_attribute
              | none =>
                  match write_attribute_from_custom_data mesh.edata mesh.totedge attribute_name
                      .ATTR_DOMAIN_EDGE with
                  | some edge_attribute => some edge_attribute
                  | none =>
                      match write_attribute_from_custom_data mesh.pdata mesh.totpoly
                          attribute_name .ATTR_DOMAIN_POLYGON with
                      | some polygon_attribute => some polygon_attribute
                      | none => none

/-- `MeshComponent::attribute_try_delete(name)`: after the built-in and
null-mesh checks, unconditionally purge the name from all four domain
stores, and when the name is a registered vertex group, remove that
group's weight entry from every vertex and deregister the name; then
return `true`. -/
def MeshComponent.attribute_try_delete (c : MeshComponent)
    (attribute_name : String) : MeshComponent × Bool :=
  if c.attribute_is_builtin attribute_name then (c, false)
  else
    match c.mesh with
    | none => (c, false)
    | some mesh =>
        let mesh2 : Mesh :=
          { mesh with
            ldata := (delete_named_custom_data_layer mesh.ldata attribute_name).1
            vdata := (delete_named_custom_data_layer mesh.vdata attribute_name).1
            edata := (delete_named_custom_data_layer mesh.edata attribute_name).1
            pdata := (delete_named_custom_data_layer mesh.pdata attribute_name).1 }
        let vertex_group_index := map_lookup_default c.vertex_group_names attribute_name (-1)
        if vertex_group_index ≠ -1 then
          let mesh3 :=
            { mesh2 with
              dvert := mesh2.dvert.map (fun dv => ⟨defvert_remove_group dv.dw vertex_group_index⟩) }
          (⟨some mesh3, map_remove c.vertex_group_names attribute_name⟩, true)
        else (⟨some mesh2, c.vertex_group_names⟩, true)

/-- `MeshComponent::attribute_try_create(name, domain, data_type)`. -/
def MeshComponent.attribute_try_create (c : MeshComponent)
    (attribute_name : String) (domain : AttributeDomain) (data_type : CDType) :
    MeshComponent × Bool :=
  if c.attribute_is_builtin attribute_name then (c, false)
  else if !c.attribute_domain_with_type_supported domain data_type then (c, false)
  else
    match c.mesh with
    | none => (c, false)
    | some mesh =>
        match domain with
        | .ATTR_DOMAIN_CORNER =>
            if custom_data_has_layer_with_name mesh.ldata attribute_name then (c, false)
            else
              let ldata2 :=
                CustomData_add_layer_named mesh.ldata data_type mesh.totloop attribute_name
              (⟨some { mesh with ldata := ldata2 }, c.vertex_group_names⟩, true)
        | .ATTR_DOMAIN_VERTEX =>
            if custom_data_has_layer_with_name mesh.vdata attribute_name then (c, false)
            else if map_contains c.vertex_group_names attribute_name then (c, false)
            else
              let vdata2 :=
                CustomData_add_layer_named mesh.vdata data_type mesh.totvert attribute_name
              (⟨some { mesh with vdata := vdata2 }, c.vertex_group_names⟩, true)
        | .ATTR_DOMAIN_EDGE =>
            if custom_data_has_layer_with_name mesh.edata attribute_name then (c, false)
            else
              let edata2 :=
                CustomData_add_layer_named mesh.edata data_type mesh.totedge attribute_name
              (⟨some { mesh with edata := edata2 }, c.vertex_group_names⟩, true)
        | .ATTR_DOMAIN_POLYGON =>
            if custom_data_has_layer_with_name mesh.pdata attribute_name then (c, false)
            else
              let pdata2 :=
                CustomData_add_layer_named mesh.pdata data_type mesh.totpoly attribute_name
              (⟨some { mesh with pdata := pdata2 }, c.vertex_group_names⟩, true)
        | .ATTR_DOMAIN_POINT => (c, false)

/-! ### GeometryComponent base-class algorithms

The typed read overload, `attribute_get_for_read` and
`attribute_try_ensure_for_write` live on the base class and are expressed
over the virtual hooks a concrete component overrides.  The hooks are
collected in a record so the same algorithm text serves both concrete
components, mirroring the single base-class definition in the source. -/

/-- The virtual hooks of `GeometryComponent` that the base-class
algorithms dispatch through, over a component state type `σ`.  The
mutating hooks return the successor state alongside their result. -/
structure GeometryComponentOps (σ : Type) where
  attribute_domain_with_type_supported : σ → AttributeDomain → CDType → Bool
  attribute_domain_size : σ → AttributeDomain → Nat
  attribute_try_get_for_read : σ → String → Option ReadAttribute
  attribute_try_get_for_write : σ → String → Option WriteAttribute
  attribute_try_delete : σ → String → σ × Bool
  attribute_try_create : σ → String → AttributeDomain → CDType → σ × Bool

/-- `GeometryComponent::attribute_try_adapt_domain` (not overridden by
either concrete component): keep the attribute exactly when it exists and
its domain already equals the requested one. -/
def attribute_try_adapt_domain (attr0 : Option ReadAttribute)
    (domain : AttributeDomain) : Option ReadAttribute :=
  match attr0 with
  | some a => if a.domain = domain then some a else none
  | none => none

/-- The typed overload
`GeometryComponent::attribute_try_get_for_read(name, domain, data_type)`.
The source asserts `cpp_type != nullptr` after the supported check; the
model returns `none` on that (unreachable for the concrete components)
assertion failure. -/
def attribute_try_get_for_read_typed {σ : Type} (ops : GeometryComponentOps σ) (s : σ)
    (attribute_name : String) (domain : AttributeDomain) (data_type : CDType) :
    Option ReadAttribute :=
  if !ops.attribute_domain_with_type_supported s domain data_type then none
  else
    match ops.attribute_try_get_for_read s attribute_name with
    | none => none
    | some attr0 =>
        let adapted : Option ReadAttribute :=
          if attr0.domain ≠ domain then attribute_try_adapt_domain (some attr0) domain
          else some attr0
        match adapted with
        | none => none
        | some a =>
            match custom_data_type_to_cpp_type data_type with
            | none => none
            | some cpp => if a.cpp_type ≠ cpp then none else some a

/-- `GeometryComponent::attribute_get_for_read(name, domain, data_type,
default_value)`: the typed lookup, falling back to a
`ConstantReadAttribute` over the domain sized to
`attribute_domain_size(domain)` holding a copy of the default value.
The entry assertion (`attribute_domain_with_type_supported`) and the
`cpp_type != nullptr` assertion are modelled as `none` on failure. -/
def attribute_get_for_read {σ : Type} (ops : GeometryComponentOps σ) (s : σ)
    (attribute_name : String) (domain : AttributeDomain) (data_type : CDType)
    (default_value : Value) : Option ReadAttribute :=
  if !ops.attribute_domain_with_type_supported s domain data_type then none
  else
    match attribute_try_get_for_read_typed ops s attribute_name domain data_type with
    | some attr0 => some attr0
    | none =>
        match custom_data_type_to_cpp_type data_type with
        | none => none
        | some cpp =>
            some ⟨domain, cpp, ops.attribute_domain_size s domain, .constant default_value⟩

/-- Tail of `attribute_try_ensure_for_write` after the existing-handle
logic: the supported check, creation, and the re-fetch. -/
def attribute_ensure_create_and_fetch {σ : Type} (ops : GeometryComponentOps σ) (s : σ)
    (attribute_name : String) (domain : AttributeDomain) (data_type : CDType) :
    σ × Option WriteAttribute :=
  if !ops.attribute_domain_with_type_supported s domain data_type then (s, none)
  else
    let created := ops.attribute_try_create s attribute_name domain data_type
    if !created.2 then (created.1, none)
    else (created.1, ops.attribute_try_get_for_write created.1 attribute_name)

/-- `GeometryComponent::attribute_try_ensure_for_write(name, domain,
data_type)`: return an existing exactly-matching write handle unchanged;
delete a mismatched one (propagating delete failure); then check support,
create, and re-fetch.  The leading `cpp_type != nullptr` assertion is
modelled as an empty result. -/
def attribute_try_ensure_for_write {σ : Type} (ops : GeometryComponentOps σ) (s : σ)
    (attribute_name : String) (domain : AttributeDomain) (data_type : CDType) :
    σ × Option WriteAttribute :=
  match custom_data_type_to_cpp_type data_type with
  | none => (s, none)
  | some cpp =>
      match ops.attribute_try_get_for_write s attribute_name with
      | some attr0 =>
          if attr0.domain = domain ∧ attr0.cpp_type = cpp then (s, some attr0)
          else
            let deleted := ops.attribute_try_delete s attribute_name
            if !deleted.2 then (deleted.1, none)
            else attribute_ensure_create_and_fetch ops deleted.1 attribute_name domain data_type
      | none => attribute_ensure_create_and_fetch ops s attribute_name domain data_type

/-- The `GeometryComponentOps` record of `MeshComponent`. -/
def MeshComponent.ops : GeometryComponentOps MeshComponent where
  attribute_domain_with_type_supported := MeshComponent.attribute_domain_with_type_supported
  attribute_domain_size := MeshComponent.attribute_domain_size
  attribute_try_get_for_read := MeshComponent.attribute_try_get_for_read
  attribute_try_get_for_write := MeshComponent.attribute_try_get_for_write
  attribute_try_delete := MeshComponent.attribute_try_delete
  attribute_try_create := MeshComponent.attribute_try_create

/-- The `GeometryComponentOps` record of `PointCloudComponent`. -/
def PointCloudComponent.ops : GeometryComponentOps PointCloudComponent where
  attribute_domain_with_type_supported := PointCloudComponent.attribute_domain_with_type_supported
  attribute_domain_size := PointCloudComponent.attribute_domain_size
  attribute_try_get_for_read := PointCloudComponent.attribute_try_get_for_read
  attribute_try_get_for_write := PointCloudComponent.attribute_try_get_for_write
  attribute_try_delete := PointCloudComponent.attribute_try_delete
  attribute_try_create := PointCloudComponent.attribute_try_create

/-! ### Characterizations of the list scans -/

/-- The condition under which the custom-data scan accepts a layer:
its name matches and its type tag has an element type. -/
def supported_layer_match (attribute_name : String) (layer : CustomDataLayer) : Bool :=
  decide (layer.name = attribute_name) && (custom_data_type_to_cpp_type layer.type).isSome

/-- The `ArrayReadAttribute`/`ArrayWriteAttribute` wrapped around an
accepted layer's column. -/
def layer_array_attribute (domain : AttributeDomain) (size : Nat)
    (layer : CustomDataLayer) : Option AttributeHandle :=
  (custom_data_type_to_cpp_type layer.type).map
    (fun cpp => ⟨domain, cpp, size, .arrayData layer.data⟩)

lemma read_attribute_layers_eq_find (size : Nat) (attribute_name : String)
    (domain : AttributeDomain) :
    ∀ layers, read_attribute_layers size attribute_name domain layers
      = (layers.find? (supported_layer_match attribute_name)).bind
          (layer_array_attribute domain size)
  | [] => by simp [read_attribute_layers]
  | layer :: rest => by
      by_cases h : layer.name = attribute_name
      · cases hc : custom_data_type_to_cpp_type layer.type with
        | some cpp =>
            have hm : supported_layer_match attribute_name layer = true := by
              simp [supported_layer_match, h, hc]
            have hfind : List.find? (supported_layer_match attribute_name) (layer :: rest)
                = some layer := List.find?_cons_of_pos rest hm
            simp [read_attribute_layers, h, hc, hfind, layer_array_attribute]
        | none =>
            have hm : supported_layer_match attribute_name layer = false := by
              simp [supported_layer_match, h, hc]
            have hfind : List.find? (supported_layer_match attribute_name) (layer :: rest)
                = List.find? (supported_layer_match attribute_name) rest :=
              List.find?_cons_of_neg rest (by simp [hm])
            simp [read_attribute_layers, h, hc, hfind,
              read_attribute_layers_eq_find size attribute_name domain rest]
      · have hm : supported_layer_match attribute_name layer = false := by
          simp [supported_layer_match, h]
        have hfind : List.find? (supported_layer_match attribute_name) (layer :: rest)
            = List.find? (supported_layer_match attribute_name) rest :=
          List.find?_cons_of_neg rest (by simp [hm])
        simp [read_attribute_layers, h, hfind,
          read_attribute_layers_eq_find size attribute_name domain rest]

lemma write_attribute_layers_eq_read (size : Nat) (attribute_name : String)
    (domain : AttributeDomain) :
    ∀ layers, write_attribute_layers size attribute_name domain layers
      = read_attribute_layers size attribute_name domain layers
  | [] => rfl
  | layer :: rest => by
      by_cases h : layer.name = attribute_name
      · cases hc : custom_data_type_to_cpp_type layer.type with
        | some cpp => simp [read_attribute_layers, write_attribute_layers, h, hc]
        | none =>
            simp [read_attribute_layers, write_attribute_layers, h, hc,
              write_attribute_layers_eq_read size attribute_name domain rest]
      · simp [read_attribute_layers, write_attribute_layers, h,
          write_attribute_layers_eq_read size attribute_name domain rest]

lemma read_attribute_from_custom_data_eq_find (custom_data : CustomData) (size : Nat)
    (attribute_name : String) (domain : AttributeDomain) :
    read_attribute_from_custom_data custom_data size attribute_name domain
      = (custom_data.layers.find? (supported_layer_match attribute_name)).bind
          (layer_array_attribute domain size) :=
  read_attribute_layers_eq_find size attribute_name domain custom_data.layers

lemma write_attribute_from_custom_data_eq_read (custom_data : CustomData) (size : Nat)
    (attribute_name : String) (domain : AttributeDomain) :
    write_attribute_from_custom_data custom_data size attribute_name domain
      = read_attribute_from_custom_data custom_data size attribute_name domain :=
  write_attribute_layers_eq_read size attribute_name domain custom_data.layers

lemma delete_named_layers_eq (attribute_name : String) :
    ∀ layers, delete_named_layers attribute_name layers
      = (layers.eraseP (fun l => decide (l.name = attribute_name)),
         layers.any (fun l => decide (l.name = attribute_name)))
  | [] => by simp [delete_named_layers]
  | layer :: rest => by
      by_cases h : layer.name = attribute_name
      · simp [delete_named_layers, h, List.eraseP_cons]
      · simp [delete_named_layers, h, List.eraseP_cons,
          delete_named_layers_eq attribute_name rest]

lemma eraseP_no_match_of_countP_le_one {α : Type} (p : α → Bool) :
    ∀ l : List α, l.countP p ≤ 1 → ∀ x ∈ l.eraseP p, p x = false
  | [], _, x, hx => by simp [List.eraseP] at hx
  | a :: l, h, x, hx => by
      by_cases ha : p a
      · simp only [List.eraseP_cons, ha, cond_true] at hx
        rw [List.countP_cons] at h
        simp only [ha, if_true] at h
        have h0 : l.countP p = 0 := by omega
        have := List.countP_eq_zero.mp h0 x hx
        simpa using this
      · simp only [List.eraseP_cons, ha, cond_false] at hx
        rw [List.countP_cons] at h
        simp only [ha, if_false] at h
        rcases List.mem_cons.mp hx with rfl | hx2
        · simpa using ha
        · exact eraseP_no_match_of_countP_le_one p l (by omega) x hx2

lemma getD_set_self {α : Type} (l : List α) (i : Nat) (a d : α) (h : i < l.length) :
    (l.set i a)[i]?.getD d = a := by
  simp [List.getElem?_set_self', List.getElem?_eq_getElem h]

lemma getD_set_ne {α : Type} (l : List α) {i j : Nat} (a d : α) (h : i ≠ j) :
    (l.set i a)[j]?.getD d = l[j]?.getD d := by
  simp [List.getElem?_set_ne h]

lemma defvert_find_weight_ensure (dvert_index : Int) (w : F) :
    ∀ l, defvert_find_weight (defvert_ensure_index_set l dvert_index w) dvert_index = w
  | [] => by simp [defvert_ensure_index_set, defvert_find_weight]
  | e :: rest => by
      by_cases h : e.def_nr = dvert_index
      · simp [defvert_ensure_index_set, defvert_find_weight, h]
      · simp [defvert_ensure_index_set, defvert_find_weight, h,
          defvert_find_weight_ensure dvert_index w rest]

lemma defvert_find_weight_eq_find? (dvert_index : Int) :
    ∀ l, defvert_find_weight l dvert_index
      = (((l.find? (fun e => decide (e.def_nr = dvert_index))).map
            (fun e => e.weight)).getD 0)
  | [] => by simp [defvert_find_weight]
  | e :: rest => by
      by_cases h : e.def_nr = dvert_index
      · have hfind : List.find? (fun x => decide (x.def_nr = dvert_index)) (e :: rest)
            = some e := List.find?_cons_of_pos rest (by simp [h])
        simp [defvert_find_weight, h, hfind]
      · have hfind : List.find? (fun x => decide (x.def_nr = dvert_index)) (e :: rest)
            = List.find? (fun x => decide (x.def_nr = dvert_index)) rest :=
          List.find?_cons_of_neg rest (by simp [h])
        simp [defvert_find_weight, h, hfind, defvert_find_weight_eq_find? dvert_index rest]

lemma defvert_find_weight_eq_zero (dvert_index : Int) :
    ∀ l, (∀ e ∈ l, e.def_nr ≠ dvert_index) → defvert_find_weight l dvert_index = 0
  | [], _ => by simp [defvert_find_weight]
  | e :: rest, h => by
      have he := h e (by simp)
      simp [defvert_find_weight, he,
        defvert_find_weight_eq_zero dvert_index rest (fun x hx => h x (by simp [hx]))]

lemma defvert_remove_group_eq_eraseP (dvert_index : Int) :
    ∀ l, defvert_remove_group l dvert_index
      = l.eraseP (fun e => decide (e.def_nr = dvert_index))
  | [] => by simp [defvert_remove_group]
  | e :: rest => by
      by_cases h : e.def_nr = dvert_index
      · simp [defvert_remove_group, h, List.eraseP_cons]
      · simp [defvert_remove_group, h, List.eraseP_cons,
          defvert_remove_group_eq_eraseP dvert_index rest]

/-! ### Claim theorems -/

/-- C10: in the generic-column lookup shared by the read and write paths,
a layer whose name matches but whose type tag is unsupported does not
abort the scan: the result is exactly the first layer matching in both
name and supported type (so a later same-named layer of supported type is
still found), and the lookup is empty precisely when no name-matching
layer of supported type exists. -/
theorem C10_unsupported_type_layer_skipped (custom_data : CustomData) (size : Nat)
    (attribute_name : String) (domain : AttributeDomain) :
    (read_attribute_from_custom_data custom_data size attribute_name domain
        = (custom_data.layers.find? (supported_layer_match attribute_name)).bind
            (layer_array_attribute domain size))
    ∧ (write_attribute_from_custom_data custom_data size attribute_name domain
        = (custom_data.layers.find? (supported_layer_match attribute_name)).bind
            (layer_array_attribute domain size))
    ∧ (read_attribute_from_custom_data custom_data size attribute_name domain = none
        ↔ ∀ layer ∈ custom_data.layers,
            ¬(layer.name = attribute_name
              ∧ (custom_data_type_to_cpp_type layer.type).isSome)) := by
  refine ⟨read_attribute_from_custom_data_eq_find custom_data size attribute_name domain,
    ?_, ?_⟩
  · rw [write_attribute_from_custom_data_eq_read]
    exact read_attribute_from_custom_data_eq_find custom_data size attribute_name domain
  · rw [read_attribute_from_custom_data_eq_find]
    constructor
    · intro hnone layer hmem hcl
      cases hfind : custom_data.layers.find? (supported_layer_match attribute_name) with
      | none =>
          have := List.find?_eq_none.mp hfind layer hmem
          simp [supported_layer_match, hcl.1, hcl.2] at this
      | some found =>
          have hp := List.find?_some hfind
          simp only [supported_layer_match, Bool.and_eq_true, decide_eq_true_eq] at hp
          rw [hfind] at hnone
          rcases Option.isSome_iff_exists.mp hp.2 with ⟨cpp, hcpp⟩
          simp [layer_array_attribute, hcpp] at hnone
    · intro hall
      cases hfind : custom_data.layers.find? (supported_layer_match attribute_name) with
      | none => simp
      | some found =>
          have hmem := List.mem_of_find?_eq_some hfind
          have hp := List.find?_some hfind
          simp only [supported_layer_match, Bool.and_eq_true, decide_eq_true_eq] at hp
          exact absurd ⟨hp.1, hp.2⟩ (hall found hmem)

/-- C7: on a vertex-group weight attribute with group index `g`, `get(i)`
returns the weight of the first entry of vertex `i`'s sparse list whose
group index equals `g`, and exactly `0.0` when no entry for `g` exists;
`set(i, w)` locates or allocates the entry for `g` and overwrites it, so a
subsequent `get(i)` yields `w` while every other vertex is unchanged. -/
theorem C7_vertex_weight_sparse_semantics (dverts : List MDeformVert) (g : Int)
    (domain : AttributeDomain) (size : Nat) (i j : Nat) (w : F)
    (hi : i < dverts.length) (hij : j ≠ i) :
    (AttributeHandle.get_internal ⟨domain, .float, size, .vertexWeight dverts g⟩ i
        = .vfloat ((((dverts.getD i ⟨[]⟩).dw.find? (fun e => decide (e.def_nr = g))).map
            (fun e => e.weight)).getD 0))
    ∧ ((∀ e ∈ (dverts.getD i ⟨[]⟩).dw, e.def_nr ≠ g) →
        AttributeHandle.get_internal ⟨domain, .float, size, .vertexWeight dverts g⟩ i
          = .vfloat 0)
    ∧ ((AttributeHandle.set_internal ⟨domain, .float, size, .vertexWeight dverts g⟩ i
          (.vfloat w)).get_internal i = .vfloat w)
    ∧ ((AttributeHandle.set_internal ⟨domain, .float, size, .vertexWeight dverts g⟩ i
          (.vfloat w)).get_internal j
        = AttributeHandle.get_internal ⟨domain, .float, size, .vertexWeight dverts g⟩ j) := by
  refine ⟨?_, ?_, ?_, ?_⟩
  · simp [AttributeHandle.get_internal, defvert_find_weight_eq_find? g]
  · intro hno
    simp only [List.getD_eq_getElem?_getD] at hno
    simp [AttributeHandle.get_internal, defvert_find_weight_eq_zero g _ hno]
  · have hset := getD_set_self dverts i
      (⟨defvert_ensure_index_set (dverts[i]?.getD ⟨[]⟩).dw g w⟩ : MDeformVert)
      (⟨[]⟩ : MDeformVert) hi
    simp [AttributeHandle.get_internal, AttributeHandle.set_internal, hset,
      defvert_find_weight_ensure g w]
  · have hset := getD_set_ne dverts
      (⟨defvert_ensure_index_set (dverts[i]?.getD ⟨[]⟩).dw g w⟩ : MDeformVert)
      (⟨[]⟩ : MDeformVert) (fun hh => hij hh.symm)
    simp [AttributeHandle.get_internal, AttributeHandle.set_internal, hset]

/-- Witness for C7 at a concrete attribute: two vertices with empty weight
lists, group 0: reading returns 0, writing 5 to vertex 0 reads back 5 and
leaves vertex 1 at 0. -/
theorem C7_vertex_weight_sparse_semantics_witness :
    (0 < [(⟨[]⟩ : MDeformVert), ⟨[]⟩].length ∧ (1 : Nat) ≠ 0)
    ∧ ((AttributeHandle.set_internal
          ⟨.ATTR_DOMAIN_VERTEX, .float, 2, .vertexWeight [⟨[]⟩, ⟨[]⟩] 0⟩ 0
          (.vfloat 5)).get_internal 0 = .vfloat 5) :=
  ⟨⟨by decide, by decide⟩,
    (C7_vertex_weight_sparse_semantics [⟨[]⟩, ⟨[]⟩] 0 .ATTR_DOMAIN_VERTEX 2 0 1 5
      (by decide) (by decide)).2.2.1⟩

/-- C6: for every writable attribute kind (generic column, derived
projection, sparse vertex weight — the derived projection is the built-in
Position) and every valid index, `set(i, v)` followed by `get(i)` on the
same write handle yields `v`, provided `v` has the handle's element type
(the source leaves mismatched types undefined and callers type-check via
`cpp_type()`). -/
theorem C6_set_get_roundtrip (a : WriteAttribute) (i : Nat) (v : Value)
    (hwf : a.wf) (hw : a.source.writable) (hi : i < a.size)
    (hv : v.cpp_type = a.cpp_type) :
    (a.set_internal i v).get_internal i = v := by
  obtain ⟨domain, cpp, size, source⟩ := a
  cases source with
  | arrayData data =>
      simp only [AttributeHandle.wf] at hwf
      have hi2 : i < data.length := by simpa [hwf] using hi
      simp [AttributeHandle.set_internal, AttributeHandle.get_internal,
        getD_set_self data i v (Value.vint 0) hi2]
  | derivedPosition verts =>
      simp only [AttributeHandle.wf] at hwf
      obtain ⟨hlen, hcpp⟩ := hwf
      subst hcpp
      cases v with
      | vfloat3 x y z =>
          have hi2 : i < verts.length := by simpa [hlen] using hi
          simp [AttributeHandle.set_internal, AttributeHandle.get_internal,
            List.getElem?_set_self', List.getElem?_eq_getElem hi2]
      | vfloat _ => simp [Value.cpp_type] at hv
      | vfloat2 _ _ => simp [Value.cpp_type] at hv
      | vint _ => simp [Value.cpp_type] at hv
      | vcolor _ _ _ _ => simp [Value.cpp_type] at hv
  | vertexWeight dverts g =>
      simp only [AttributeHandle.wf] at hwf
      obtain ⟨hlen, hcpp⟩ := hwf
      subst hcpp
      cases v with
      | vfloat w =>
          have hi2 : i < dverts.length := by simpa [hlen] using hi
          have hset := getD_set_self dverts i
            (⟨defvert_ensure_index_set (dverts[i]?.getD ⟨[]⟩).dw g w⟩ : MDeformVert)
            (⟨[]⟩ : MDeformVert) hi2
          simp [AttributeHandle.set_internal, AttributeHandle.get_internal, hset,
            defvert_find_weight_ensure g w]
      | vfloat2 _ _ => simp [Value.cpp_type] at hv
      | vfloat3 _ _ _ => simp [Value.cpp_type] at hv
      | vint _ => simp [Value.cpp_type] at hv
      | vcolor _ _ _ _ => simp [Value.cpp_type] at hv
  | constant _ => exact absurd hw (by simp [AttrSource.writable])

/-- Witness for C6 on the derived-position kind: writing `(7, 8, 9)` to
vertex 0 of a one-vertex position attribute reads back `(7, 8, 9)`. -/
theorem C6_set_get_roundtrip_witness :
    (AttributeHandle.wf ⟨.ATTR_DOMAIN_VERTEX, .float3, 1, .derivedPosition [⟨(1, 2, 3)⟩]⟩
      ∧ AttrSource.writable (.derivedPosition [⟨(1, 2, 3)⟩])
      ∧ 0 < 1 ∧ Value.cpp_type (.vfloat3 7 8 9) = .float3)
    ∧ (AttributeHandle.set_internal
          ⟨.ATTR_DOMAIN_VERTEX, .float3, 1, .derivedPosition [⟨(1, 2, 3)⟩]⟩ 0
          (.vfloat3 7 8 9)).get_internal 0 = .vfloat3 7 8 9 :=
  ⟨⟨by constructor <;> rfl, by trivial, by decide, rfl⟩,
    C6_set_get_roundtrip ⟨.ATTR_DOMAIN_VERTEX, .float3, 1, .derivedPosition [⟨(1, 2, 3)⟩]⟩ 0
      (.vfloat3 7 8 9) (by constructor <;> rfl) (by trivial) (by decide) rfl⟩

lemma cpp_type_isSome_of_supported (t : CDType)
    (h : custom_data_type_supported t = true) :
    (custom_data_type_to_cpp_type t).isSome := by
  cases t <;> simp_all [custom_data_type_supported, custom_data_type_to_cpp_type]

/-- C4: the typed overload rejects unsupported (domain, type) pairs
immediately; fails when the name is absent; when the fetched attribute's
native domain differs it goes through `attribute_try_adapt_domain`, whose
default accepts exactly a present attribute of the already-equal domain
(so a differing domain fails); a differing element type fails with no
implicit conversion; and an exact match is returned. -/
theorem C4_typed_overload_rejections {σ : Type} (ops : GeometryComponentOps σ) (s : σ)
    (attribute_name : String) (domain : AttributeDomain) (data_type : CDType) :
    (ops.attribute_domain_with_type_supported s domain data_type = false →
        attribute_try_get_for_read_typed ops s attribute_name domain data_type = none)
    ∧ (ops.attribute_domain_with_type_supported s domain data_type = true →
        ops.attribute_try_get_for_read s attribute_name = none →
        attribute_try_get_for_read_typed ops s attribute_name domain data_type = none)
    ∧ (∀ a, ops.attribute_domain_with_type_supported s domain data_type = true →
        ops.attribute_try_get_for_read s attribute_name = some a →
        a.domain ≠ domain →
        attribute_try_get_for_read_typed ops s attribute_name domain data_type = none)
    ∧ (∀ a cpp, ops.attribute_domain_with_type_supported s domain data_type = true →
        ops.attribute_try_get_for_read s attribute_name = some a →
        a.domain = domain →
        custom_data_type_to_cpp_type data_type = some cpp →
        a.cpp_type ≠ cpp →
        attribute_try_get_for_read_typed ops s attribute_name domain data_type = none)
    ∧ (∀ a cpp, ops.attribute_domain_with_type_supported s domain data_type = true →
        ops.attribute_try_get_for_read s attribute_name = some a →
        a.domain = domain →
        custom_data_type_to_cpp_type data_type = some cpp →
        a.cpp_type = cpp →
        attribute_try_get_for_read_typed ops s attribute_name domain data_type = some a)
    ∧ (∀ (a : ReadAttribute) (d : AttributeDomain),
        (attribute_try_adapt_domain (some a) d = some a ↔ a.domain = d)
        ∧ attribute_try_adapt_domain none d = none) := by
  refine ⟨?_, ?_, ?_, ?_, ?_, ?_⟩
  · intro hsup
    simp [attribute_try_get_for_read_typed, hsup]
  · intro hsup hget
    simp [attribute_try_get_for_read_typed, hsup, hget]
  · intro a hsup hget hdom
    simp [attribute_try_get_for_read_typed, hsup, hget, hdom, attribute_try_adapt_domain]
  · intro a cpp hsup hget hdom hcpp hne
    simp [attribute_try_get_for_read_typed, hsup, hget, hdom, hcpp, hne]
  · intro a cpp hsup hget hdom hcpp heq
    simp [attribute_try_get_for_read_typed, hsup, hget, hdom, hcpp, heq]
  · intro a d
    constructor
    · by_cases h : a.domain = d <;> simp [attribute_try_adapt_domain, h]
    · simp [attribute_try_adapt_domain]

/-- Sample point-cloud component with one color layer, used by witnesses. -/
def pcSample : PointCloudComponent :=
  ⟨some ⟨2, ⟨[⟨"col", .CD_PROP_COLOR, [.vcolor 1 1 1 1, .vcolor 0 0 0 0]⟩]⟩⟩⟩

/-- Sample mesh component with one registered vertex group and no layers,
used by witnesses. -/
def mcSample : MeshComponent :=
  ⟨some ⟨2, 0, 0, 0, [⟨(1, 2, 3)⟩, ⟨(4, 5, 6)⟩], [⟨[]⟩, ⟨[]⟩], ⟨[]⟩, ⟨[]⟩, ⟨[]⟩, ⟨[]⟩⟩,
    [("grp", 0)]⟩

/-- Witness for C4: each rejection and the exact-match acceptance at
concrete components. -/
theorem C4_typed_overload_rejections_witness :
    (attribute_try_get_for_read_typed PointCloudComponent.ops pcSample "col"
        .ATTR_DOMAIN_VERTEX .CD_PROP_FLOAT = none)
    ∧ (attribute_try_get_for_read_typed PointCloudComponent.ops pcSample "nope"
        .ATTR_DOMAIN_POINT .CD_PROP_FLOAT = none)
    ∧ (attribute_try_get_for_read_typed MeshComponent.ops mcSample "grp"
        .ATTR_DOMAIN_CORNER .CD_PROP_FLOAT = none)
    ∧ (attribute_try_get_for_read_typed PointCloudComponent.ops pcSample "col"
        .ATTR_DOMAIN_POINT .CD_PROP_FLOAT = none)
    ∧ (attribute_try_get_for_read_typed PointCloudComponent.ops pcSample "col"
        .ATTR_DOMAIN_POINT .CD_PROP_COLOR
        = some ⟨.ATTR_DOMAIN_POINT, .color4f, 2,
            .arrayData [.vcolor 1 1 1 1, .vcolor 0 0 0 0]⟩) :=
  ⟨(C4_typed_overload_rejections PointCloudComponent.ops pcSample "col"
      .ATTR_DOMAIN_VERTEX .CD_PROP_FLOAT).1 (by decide),
   (C4_typed_overload_rejections PointCloudComponent.ops pcSample "nope"
      .ATTR_DOMAIN_POINT .CD_PROP_FLOAT).2.1 (by decide) (by decide),
   (C4_typed_overload_rejections MeshComponent.ops mcSample "grp"
      .ATTR_DOMAIN_CORNER .CD_PROP_FLOAT).2.2.1
      ⟨.ATTR_DOMAIN_VERTEX, .float, 2, .vertexWeight [⟨[]⟩, ⟨[]⟩] 0⟩
      (by decide) (by decide) (by decide),
   (C4_typed_overload_rejections PointCloudComponent.ops pcSample "col"
      .ATTR_DOMAIN_POINT .CD_PROP_FLOAT).2.2.2.1
      ⟨.ATTR_DOMAIN_POINT, .color4f, 2, .arrayData [.vcolor 1 1 1 1, .vcolor 0 0 0 0]⟩
      .float (by decide) (by decide) (by decide) (by decide) (by decide),
   (C4_typed_overload_rejections PointCloudComponent.ops pcSample "col"
      .ATTR_DOMAIN_POINT .CD_PROP_COLOR).2.2.2.2.1
      ⟨.ATTR_DOMAIN_POINT, .color4f, 2, .arrayData [.vcolor 1 1 1 1, .vcolor 0 0 0 0]⟩
      .color4f (by decide) (by decide) (by decide) (by decide) (by decide)⟩

/-- C5: under the asserted precondition that (domain, data_type) is
supported — which, for both concrete components, guarantees the type has
an element-type mapping — `attribute_get_for_read` always returns a
handle, and whenever the typed lookup fails the handle is a constant
attribute over the requested domain of length
`attribute_domain_size(domain)` whose `get(i)` is the default value for
every index. -/
theorem C5_constant_default_fallback {σ : Type} (ops : GeometryComponentOps σ) (s : σ)
    (attribute_name : String) (domain : AttributeDomain) (data_type : CDType)
    (default_value : Value) (cpp : CPPType)
    (hsup : ops.attribute_domain_with_type_supported s domain data_type = true)
    (hcpp : custom_data_type_to_cpp_type data_type = some cpp) :
    (attribute_get_for_read ops s attribute_name domain data_type default_value).isSome
    ∧ (attribute_try_get_for_read_typed ops s attribute_name domain data_type = none →
        attribute_get_for_read ops s attribute_name domain data_type default_value
          = some ⟨domain, cpp, ops.attribute_domain_size s domain, .constant default_value⟩
        ∧ ∀ i : Nat,
            AttributeHandle.get_internal
              ⟨domain, cpp, ops.attribute_domain_size s domain, .constant default_value⟩ i
              = default_value)
    ∧ (∀ (c : MeshComponent) (d : AttributeDomain) (t : CDType),
        MeshComponent.attribute_domain_with_type_supported c d t = true →
        (custom_data_type_to_cpp_type t).isSome)
    ∧ (∀ (c : PointCloudComponent) (d : AttributeDomain) (t : CDType),
        PointCloudComponent.attribute_domain_with_type_supported c d t = true →
        (custom_data_type_to_cpp_type t).isSome) := by
  refine ⟨?_, ?_, ?_, ?_⟩
  · cases htyped : attribute_try_get_for_read_typed ops s attribute_name domain data_type with
    | some a => simp [attribute_get_for_read, hsup, htyped]
    | none => simp [attribute_get_for_read, hsup, htyped, hcpp]
  · intro htyped
    refine ⟨by simp [attribute_get_for_read, hsup, htyped, hcpp], fun i => rfl⟩
  · intro c d t ht
    simp only [MeshComponent.attribute_domain_with_type_supported, Bool.and_eq_true] at ht
    exact cpp_type_isSome_of_supported t ht.2
  · intro c d t ht
    simp only [PointCloudComponent.attribute_domain_with_type_supported,
      Bool.and_eq_true] at ht
    exact cpp_type_isSome_of_supported t ht.2

/-- Witness for C5: a lookup of an absent name on the sample point cloud
yields the constant fallback with the default value at every point. -/
theorem C5_constant_default_fallback_witness :
    (PointCloudComponent.ops.attribute_domain_with_type_supported pcSample
        .ATTR_DOMAIN_POINT .CD_PROP_FLOAT = true
      ∧ custom_data_type_to_cpp_type .CD_PROP_FLOAT = some .float
      ∧ attribute_try_get_for_read_typed PointCloudComponent.ops pcSample "nope"
          .ATTR_DOMAIN_POINT .CD_PROP_FLOAT = none)
    ∧ (attribute_get_for_read PointCloudComponent.ops pcSample "nope" .ATTR_DOMAIN_POINT
          .CD_PROP_FLOAT (.vfloat 3)
        = some ⟨.ATTR_DOMAIN_POINT, .float,
            PointCloudComponent.ops.attribute_domain_size pcSample .ATTR_DOMAIN_POINT,
            .constant (.vfloat 3)⟩) :=
  ⟨⟨by decide, rfl, by decide⟩,
    ((C5_constant_default_fallback PointCloudComponent.ops pcSample "nope"
        .ATTR_DOMAIN_POINT .CD_PROP_FLOAT (.vfloat 3) .float (by decide) rfl).2.1
      (by decide)).1⟩

lemma map_contains_iff_nonneg (entries : List (String × Int)) (key : String)
    (h : ∀ p ∈ entries, 0 ≤ p.2) :
    0 ≤ map_lookup_default entries key (-1) ↔ map_contains entries key = true := by
  unfold map_lookup_default map_contains
  cases hf : entries.find? (fun p => decide (p.1 = key)) with
  | none =>
      simp only [hf]
      constructor
      · intro h0; omega
      · intro hany
        rcases List.any_eq_true.mp hany with ⟨p, hp, hpk⟩
        have hnone := List.find?_eq_none.mp hf p hp
        exact absurd hpk hnone
  | some p =>
      simp only [hf]
      constructor
      · intro _
        have hp := List.find?_some hf
        exact List.any_eq_true.mpr ⟨p, List.mem_of_find?_eq_some hf, hp⟩
      · intro _
        exact h p (List.mem_of_find?_eq_some hf)

/-- The lookup precedence of C1, stated in the claim's own declarative
terms: built-in "Position" first; otherwise the first of — generic Corner
column, vertex-group weight when the name is registered, generic Vertex
column, generic Edge column, generic Polygon column — where "generic
column on a domain" is the first name-matching supported-type layer of
that domain's store; absent mesh or no hit gives an empty handle. -/
def mesh_read_lookup_spec (c : MeshComponent) (attribute_name : String) :
    Option ReadAttribute :=
  match c.mesh with
  | none => none
  | some mesh =>
      if attribute_name = "Position" then some (mesh_position_attribute mesh)
      else
        (((mesh.ldata.layers.find? (supported_layer_match attribute_name)).bind
            (layer_array_attribute .ATTR_DOMAIN_CORNER mesh.totloop)).or
          ((if map_contains c.vertex_group_names attribute_name then
              some (mesh_vertex_weight_attribute mesh
                (map_lookup_default c.vertex_group_names attribute_name (-1)))
            else none).or
            (((mesh.vdata.layers.find? (supported_layer_match attribute_name)).bind
                (layer_array_attribute .ATTR_DOMAIN_VERTEX mesh.totvert)).or
              (((mesh.edata.layers.find? (supported_layer_match attribute_name)).bind
                  (layer_array_attribute .ATTR_DOMAIN_EDGE mesh.totedge)).or
                ((mesh.pdata.layers.find? (supported_layer_match attribute_name)).bind
                  (layer_array_attribute .ATTR_DOMAIN_POLYGON mesh.totpoly))))))

/-- C1: `MeshComponent::attribute_try_get_for_read(name)` implements
exactly the claimed precedence order (under the registry invariant that
vertex-group indices are non-negative): built-in "Position" as the derived
float3 attribute over the vertex records, then Corner generic column, then
the vertex-group weight attribute for a registered name, then Vertex, Edge
and Polygon generic columns, first hit winning, empty when the mesh is
absent or nothing matches. -/
theorem C1_mesh_read_precedence (c : MeshComponent) (attribute_name : String)
    (hvg : ∀ p ∈ c.vertex_group_names, 0 ≤ p.2) :
    c.attribute_try_get_for_read attribute_name = mesh_read_lookup_spec c attribute_name := by
  cases hm : c.mesh with
  | none => simp [MeshComponent.attribute_try_get_for_read, mesh_read_lookup_spec, hm]
  | some mesh =>
      by_cases hpos : attribute_name = "Position"
      · simp [MeshComponent.attribute_try_get_for_read, mesh_read_lookup_spec, hm, hpos]
      · simp only [MeshComponent.attribute_try_get_for_read, mesh_read_lookup_spec, hm,
          hpos, if_false, read_attribute_from_custom_data_eq_find]
        cases hcorner : (mesh.ldata.layers.find? (supported_layer_match attribute_name)).bind
            (layer_array_attribute .ATTR_DOMAIN_CORNER mesh.totloop) with
        | some a => simp [hcorner]
        | none =>
            simp only [hcorner, Option.none_or]
            by_cases hvgc : map_contains c.vertex_group_names attribute_name = true
            · have h0 : 0 ≤ map_lookup_default c.vertex_group_names attribute_name (-1) :=
                (map_contains_iff_nonneg c.vertex_group_names attribute_name hvg).mpr hvgc
              simp [hvgc, h0]
            · have h0 : ¬ 0 ≤ map_lookup_default c.vertex_group_names attribute_name (-1) :=
                fun hle =>
                  hvgc ((map_contains_iff_nonneg c.vertex_group_names attribute_name hvg).mp hle)
              simp only [hvgc, if_false, h0, Option.none_or]
              cases hvert : (mesh.vdata.layers.find? (supported_layer_match attribute_name)).bind
                  (layer_array_attribute .ATTR_DOMAIN_VERTEX mesh.totvert) with
              | some a => simp [hvert]
              | none =>
                  simp only [hvert, Option.none_or]
                  cases hedge :
                      (mesh.edata.layers.find? (supported_layer_match attribute_name)).bind
                        (layer_array_attribute .ATTR_DOMAIN_EDGE mesh.totedge) with
                  | some a => simp [hedge]
                  | none =>
                      simp only [hedge, Option.none_or]
                      cases hpoly :
                          (mesh.pdata.layers.find? (supported_layer_match attribute_name)).bind
                            (layer_array_attribute .ATTR_DOMAIN_POLYGON mesh.totpoly) with
                      | some a => simp [hpoly]
                      | none => simp [hpoly]

/-- Witness for C1 at the sample mesh component: the registered group name
resolves to the vertex-weight handle by the claimed precedence. -/
theorem C1_mesh_read_precedence_witness :
    (∀ p ∈ mcSample.vertex_group_names, 0 ≤ p.2)
    ∧ mcSample.attribute_try_get_for_read "grp" = mesh_read_lookup_spec mcSample "grp" :=
  ⟨by decide, C1_mesh_read_precedence mcSample "grp" (by decide)⟩

lemma has_layer_after_delete_false (cd : CustomData) (name : String)
    (h : cd.layers.countP (fun l => decide (l.name = name)) ≤ 1) :
    custom_data_has_layer_with_name (delete_named_custom_data_layer cd name).1 name = false := by
  unfold custom_data_has_layer_with_name delete_named_custom_data_layer
  rw [delete_named_layers_eq]
  rw [List.any_eq_false]
  intro l hl
  have := eraseP_no_match_of_countP_le_one (fun l => decide (l.name = name)) cd.layers h l hl
  simpa using this

lemma map_contains_remove_false (entries : List (String × Int)) (key : String)
    (h : entries.countP (fun p => decide (p.1 = key)) ≤ 1) :
    map_contains (map_remove entries key) key = false := by
  unfold map_contains map_remove
  rw [List.any_eq_false]
  intro p hp
  have := eraseP_no_match_of_countP_le_one (fun p => decide (p.1 = key)) entries h p hp
  simpa using this

/-- C2 as stated: the boolean result of the point-cloud delete (off the
built-in and absent-geometry cases) reports whether a layer of that name
was actually found and removed. -/
def pointcloud_delete_reports_found : Prop :=
  ∀ (c : PointCloudComponent) (p : PointCloud) (attribute_name : String),
    c.pointcloud = some p → attribute_name ≠ "Position" →
    ((c.attribute_try_delete attribute_name).2 = true
      ↔ custom_data_has_layer_with_name p.pdata attribute_name = true)

/-- Counterexample to C2: on a 3-point cloud with no layers at all,
deleting "foo" returns `true` although no layer of that name existed —
the source discards `delete_named_custom_data_layer`'s result and returns
`true` unconditionally after the built-in and null checks. -/
theorem C2_counterexample_reporting : ¬ pointcloud_delete_reports_found := by
  intro h
  have hfoo := (h ⟨some ⟨3, ⟨[]⟩⟩⟩ ⟨3, ⟨[]⟩⟩ "foo" rfl (by decide)).mp (by decide)
  exact absurd hfoo (by decide)

/-- C2 amended: `PointCloudComponent::attribute_try_delete(name)` returns
false for the built-in name "Position" and when the geometry is absent;
otherwise it removes the first point-domain layer of that name (leaving
none, when names are unique in the store) and returns `true` regardless of
whether a layer of that name existed. -/
theorem C2_amended_pointcloud_delete (c : PointCloudComponent) (attribute_name : String) :
    (attribute_name = "Position" → c.attribute_try_delete attribute_name = (c, false))
    ∧ (c.pointcloud = none → c.attribute_try_delete attribute_name = (c, false))
    ∧ (∀ p, c.pointcloud = some p → attribute_name ≠ "Position" →
        c.attribute_try_delete attribute_name
          = (⟨some { p with
                pdata := (delete_named_custom_data_layer p.pdata attribute_name).1 }⟩, true))
    ∧ (∀ p, c.pointcloud = some p → attribute_name ≠ "Position" →
        p.pdata.layers.countP (fun l => decide (l.name = attribute_name)) ≤ 1 →
        ∀ q, (c.attribute_try_delete attribute_name).1.pointcloud = some q →
          custom_data_has_layer_with_name q.pdata attribute_name = false) := by
  refine ⟨?_, ?_, ?_, ?_⟩
  · intro hpos
    simp [PointCloudComponent.attribute_try_delete, PointCloudComponent.attribute_is_builtin,
      hpos]
  · intro hnone
    by_cases hpos : attribute_name = "Position" <;>
      simp [PointCloudComponent.attribute_try_delete, PointCloudComponent.attribute_is_builtin,
        hpos, hnone]
  · intro p hp hpos
    simp [PointCloudComponent.attribute_try_delete, PointCloudComponent.attribute_is_builtin,
      hpos, hp]
  · intro p hp hpos hcount q hq
    have hdel : c.attribute_try_delete attribute_name
        = (⟨some { p with
              pdata := (delete_named_custom_data_layer p.pdata attribute_name).1 }⟩, true) := by
      simp [PointCloudComponent.attribute_try_delete, PointCloudComponent.attribute_is_builtin,
        hpos, hp]
    rw [hdel] at hq
    simp only [Option.some_inj] at hq
    subst hq
    exact has_layer_after_delete_false p.pdata attribute_name hcount

/-- C3 as stated: for every non-built-in name, the mesh delete returns
true once the built-in check passes. -/
def mesh_delete_true_after_builtin_check : Prop :=
  ∀ (c : MeshComponent) (attribute_name : String),
    attribute_name ≠ "Position" →
    (c.attribute_try_delete attribute_name).2 = true

/-- Counterexample to C3: on a component whose mesh is absent, deleting
the non-built-in name "foo" returns `false` although the built-in check
passed — the source also fails when `get_for_write()` yields null. -/
theorem C3_counterexample_absent_mesh : ¬ mesh_delete_true_after_builtin_check := by
  intro h
  exact absurd (h ⟨none, []⟩ "foo" (by decide)) (by decide)

/-- C3 amended: for every non-built-in name, when the mesh is present,
`MeshComponent::attribute_try_delete(name)` returns true even if no
column of that name existed anywhere, removes the column of that name
from all four domain stores (stated under the per-store name-uniqueness
invariant), deregisters the name from the vertex-group registry, and when
the name was a registered vertex group removes that group's weight entry
from every vertex's sparse list; when the mesh is absent it returns
false. -/
theorem C3_amended_mesh_delete (c : MeshComponent) (mesh : Mesh) (attribute_name : String)
    (hb : attribute_name ≠ "Position") (hm : c.mesh = some mesh)
    (hld : mesh.ldata.layers.countP (fun l => decide (l.name = attribute_name)) ≤ 1)
    (hvd : mesh.vdata.layers.countP (fun l => decide (l.name = attribute_name)) ≤ 1)
    (hed : mesh.edata.layers.countP (fun l => decide (l.name = attribute_name)) ≤ 1)
    (hpd : mesh.pdata.layers.countP (fun l => decide (l.name = attribute_name)) ≤ 1)
    (hreg : c.vertex_group_names.countP (fun p => decide (p.1 = attribute_name)) ≤ 1)
    (hvg : ∀ p ∈ c.vertex_group_names, 0 ≤ p.2)
    (hdw : ∀ dv ∈ mesh.dvert, dv.dw.countP
        (fun e => decide
          (e.def_nr = map_lookup_default c.vertex_group_names attribute_name (-1))) ≤ 1) :
    ((c.attribute_try_delete attribute_name).2 = true)
    ∧ (∀ mesh2, (c.attribute_try_delete attribute_name).1.mesh = some mesh2 →
        custom_data_has_layer_with_name mesh2.ldata attribute_name = false
        ∧ custom_data_has_layer_with_name mesh2.vdata attribute_name = false
        ∧ custom_data_has_layer_with_name mesh2.edata attribute_name = false
        ∧ custom_data_has_layer_with_name mesh2.pdata attribute_name = false)
    ∧ (map_contains (c.attribute_try_delete attribute_name).1.vertex_group_names
        attribute_name = false)
    ∧ (map_contains c.vertex_group_names attribute_name = true →
        ∀ mesh2, (c.attribute_try_delete attribute_name).1.mesh = some mesh2 →
          ∀ dv ∈ mesh2.dvert, ∀ e ∈ dv.dw,
            e.def_nr ≠ map_lookup_default c.vertex_group_names attribute_name (-1))
    ∧ (∀ c2 : MeshComponent, c2.mesh = none →
        (c2.attribute_try_delete attribute_name).2 = false) := by
  have hmesh2 :
      ∀ mesh2, (c.attribute_try_delete attribute_name).1.mesh = some mesh2 →
        mesh2.ldata = (delete_named_custom_data_layer mesh.ldata attribute_name).1
        ∧ mesh2.vdata = (delete_named_custom_data_layer mesh.vdata attribute_name).1
        ∧ mesh2.edata = (delete_named_custom_data_layer mesh.edata attribute_name).1
        ∧ mesh2.pdata = (delete_named_custom_data_layer mesh.pdata attribute_name).1 := by
    intro mesh2 h2
    by_cases hvgi : map_lookup_default c.vertex_group_names attribute_name (-1) = -1 <;>
      · simp [MeshComponent.attribute_try_delete, MeshComponent.attribute_is_builtin, hb, hm,
          hvgi] at h2
        subst h2
        exact ⟨rfl, rfl, rfl, rfl⟩
  refine ⟨?_, ?_, ?_, ?_, ?_⟩
  · by_cases hvgi : map_lookup_default c.vertex_group_names attribute_name (-1) = -1 <;>
      simp [MeshComponent.attribute_try_delete, MeshComponent.attribute_is_builtin, hb, hm,
        hvgi]
  · intro mesh2 h2
    obtain ⟨hl, hv, he, hp⟩ := hmesh2 mesh2 h2
    exact ⟨hl ▸ has_layer_after_delete_false mesh.ldata attribute_name hld,
      hv ▸ has_layer_after_delete_false mesh.vdata attribute_name hvd,
      he ▸ has_layer_after_delete_false mesh.edata attribute_name hed,
      hp ▸ has_layer_after_delete_false mesh.pdata attribute_name hpd⟩
  · by_cases hvgi : map_lookup_default c.vertex_group_names attribute_name (-1) = -1
    · have hnc : map_contains c.vertex_group_names attribute_name = false := by
        by_contra hcc
        have hcc2 : map_contains c.vertex_group_names attribute_name = true := by
          simpa using hcc
        have h0 := (map_contains_iff_nonneg c.vertex_group_names attribute_name hvg).mpr hcc2
        omega
      simp [MeshComponent.attribute_try_delete, MeshComponent.attribute_is_builtin, hb, hm,
        hvgi, hnc]
    · simp [MeshComponent.attribute_try_delete, MeshComponent.attribute_is_builtin, hb, hm,
        hvgi, map_contains_remove_false c.vertex_group_names attribute_name hreg]
  · intro hcont mesh2 h2 dv hdv e he
    have h0 := (map_contains_iff_nonneg c.vertex_group_names attribute_name hvg).mpr hcont
    have hvgi : ¬ map_lookup_default c.vertex_group_names attribute_name (-1) = -1 := by omega
    simp [MeshComponent.attribute_try_delete, MeshComponent.attribute_is_builtin, hb,
      hm, hvgi] at h2
    subst h2
    simp only [List.mem_map] at hdv
    obtain ⟨dv0, hdv0, hdv0eq⟩ := hdv
    subst hdv0eq
    simp only at he
    rw [defvert_remove_group_eq_eraseP] at he
    have := eraseP_no_match_of_countP_le_one
      (fun e => decide (e.def_nr = map_lookup_default c.vertex_group_names attribute_name (-1)))
      dv0.dw (hdw dv0 hdv0) e he
    simpa using this
  · intro c2 h2
    by_cases hpos : c2.attribute_is_builtin attribute_name = true <;>
      simp [MeshComponent.attribute_try_delete, h2, hpos]

/-- Witness for C3's amended statement at a concrete component: a mesh
with the registered group "grp" and empty stores; deleting "grp" returns
true, leaves no layer and no registry entry. -/
theorem C3_amended_mesh_delete_witness :
    ("grp" ≠ "Position" ∧ mcSample.mesh.isSome)
    ∧ ((mcSample.attribute_try_delete "grp").2 = true
        ∧ map_contains (mcSample.attribute_try_delete "grp").1.vertex_group_names "grp"
            = false) :=
  ⟨⟨by decide, by simp [mcSample]⟩,
    have h := C3_amended_mesh_delete mcSample
      ⟨2, 0, 0, 0, [⟨(1, 2, 3)⟩, ⟨(4, 5, 6)⟩], [⟨[]⟩, ⟨[]⟩], ⟨[]⟩, ⟨[]⟩, ⟨[]⟩, ⟨[]⟩⟩ "grp"
      (by decide) rfl (by decide) (by decide) (by decide) (by decide) (by decide)
      (by decide) (by decide)
    ⟨h.1, h.2.2.1⟩⟩

/-- The column store of a mesh domain (none for the point domain, which a
mesh does not have). -/
def Mesh.domain_store (mesh : Mesh) : AttributeDomain → Option CustomData
  | .ATTR_DOMAIN_CORNER => some mesh.ldata
  | .ATTR_DOMAIN_VERTEX => some mesh.vdata
  | .ATTR_DOMAIN_EDGE => some mesh.edata
  | .ATTR_DOMAIN_POLYGON => some mesh.pdata
  | .ATTR_DOMAIN_POINT => none

/-- Replace the column store of a mesh domain. -/
def Mesh.with_domain_store (mesh : Mesh) (domain : AttributeDomain) (cd : CustomData) : Mesh :=
  match domain with
  | .ATTR_DOMAIN_CORNER => { mesh with ldata := cd }
  | .ATTR_DOMAIN_VERTEX => { mesh with vdata := cd }
  | .ATTR_DOMAIN_EDGE => { mesh with edata := cd }
  | .ATTR_DOMAIN_POLYGON => { mesh with pdata := cd }
  | .ATTR_DOMAIN_POINT => mesh

/-- The element count of a mesh domain (the `totloop`/`totvert`/`totedge`/
`totpoly` passed to `CustomData_add_layer_named`). -/
def Mesh.domain_element_count (mesh : Mesh) : AttributeDomain → Nat
  | .ATTR_DOMAIN_CORNER => mesh.totloop
  | .ATTR_DOMAIN_VERTEX => mesh.totvert
  | .ATTR_DOMAIN_EDGE => mesh.totedge
  | .ATTR_DOMAIN_POLYGON => mesh.totpoly
  | .ATTR_DOMAIN_POINT => 0

/-- C8: `attribute_try_create(name, domain, data_type)` fails on a
built-in name, an unsupported (domain, type) pair, absent geometry, or a
name already present in the target domain's store — and, on a Mesh, only
that one target store is consulted, plus the vertex-group registry for the
Vertex domain; on success a new default-initialized column of the
requested type sized to the domain's element count is appended to exactly
the target store. -/
theorem C8_create_conditions (c : MeshComponent) (pcc : PointCloudComponent)
    (attribute_name : String) (domain : AttributeDomain) (data_type : CDType) :
    (attribute_name = "Position" →
        c.attribute_try_create attribute_name domain data_type = (c, false)
        ∧ pcc.attribute_try_create attribute_name domain data_type = (pcc, false))
    ∧ (c.attribute_domain_with_type_supported domain data_type = false →
        c.attribute_try_create attribute_name domain data_type = (c, false))
    ∧ (pcc.attribute_domain_with_type_supported domain data_type = false →
        pcc.attribute_try_create attribute_name domain data_type = (pcc, false))
    ∧ (c.mesh = none → c.attribute_try_create attribute_name domain data_type = (c, false))
    ∧ (pcc.pointcloud = none →
        pcc.attribute_try_create attribute_name domain data_type = (pcc, false))
    ∧ (∀ mesh cd, c.mesh = some mesh → mesh.domain_store domain = some cd →
        custom_data_has_layer_with_name cd attribute_name = true →
        c.attribute_try_create attribute_name domain data_type = (c, false))
    ∧ (∀ mesh, c.mesh = some mesh → domain = .ATTR_DOMAIN_VERTEX →
        map_contains c.vertex_group_names attribute_name = true →
        c.attribute_try_create attribute_name domain data_type = (c, false))
    ∧ (∀ p, pcc.pointcloud = some p →
        custom_data_has_layer_with_name p.pdata attribute_name = true →
        pcc.attribute_try_create attribute_name domain data_type = (pcc, false))
    ∧ (∀ mesh cd, attribute_name ≠ "Position" →
        c.attribute_domain_with_type_supported domain data_type = true →
        c.mesh = some mesh → mesh.domain_store domain = some cd →
        custom_data_has_layer_with_name cd attribute_name = false →
        (domain = .ATTR_DOMAIN_VERTEX →
          map_contains c.vertex_group_names attribute_name = false) →
        c.attribute_try_create attribute_name domain data_type
          = (⟨some (mesh.with_domain_store domain
                (CustomData_add_layer_named cd data_type (mesh.domain_element_count domain)
                  attribute_name)),
              c.vertex_group_names⟩, true))
    ∧ (∀ p, attribute_name ≠ "Position" →
        pcc.attribute_domain_with_type_supported domain data_type = true →
        pcc.pointcloud = some p →
        custom_data_has_layer_with_name p.pdata attribute_name = false →
        pcc.attribute_try_create attribute_name domain data_type
          = (⟨some { p with
                pdata := CustomData_add_layer_named p.pdata data_type p.totpoint
                  attribute_name }⟩, true)) := by
  refine ⟨?_, ?_, ?_, ?_, ?_, ?_, ?_, ?_, ?_, ?_⟩
  · intro hpos
    constructor
    · simp [MeshComponent.attribute_try_create, MeshComponent.attribute_is_builtin, hpos]
    · simp [PointCloudComponent.attribute_try_create,
        PointCloudComponent.attribute_is_builtin, hpos]
  · intro hsup
    by_cases hpos : attribute_name = "Position" <;>
      simp [MeshComponent.attribute_try_create, MeshComponent.attribute_is_builtin, hpos, hsup]
  · intro hsup
    by_cases hpos : attribute_name = "Position" <;>
      simp [PointCloudComponent.attribute_try_create, PointCloudComponent.attribute_is_builtin,
        hpos, hsup]
  · intro hnone
    by_cases hpos : attribute_name = "Position"
    · simp [MeshComponent.attribute_try_create, MeshComponent.attribute_is_builtin, hpos]
    · by_cases hsup : c.attribute_domain_with_type_supported domain data_type = true <;>
        simp [MeshComponent.attribute_try_create, MeshComponent.attribute_is_builtin, hpos,
          hsup, hnone]
  · intro hnone
    by_cases hpos : attribute_name = "Position"
    · simp [PointCloudComponent.attribute_try_create,
        PointCloudComponent.attribute_is_builtin, hpos]
    · by_cases hsup : pcc.attribute_domain_with_type_supported domain data_type = true <;>
        simp [PointCloudComponent.attribute_try_create,
          PointCloudComponent.attribute_is_builtin, hpos, hsup, hnone]
  · intro mesh cd hm hst hhas
    by_cases hpos : attribute_name = "Position"
    · simp [MeshComponent.attribute_try_create, MeshComponent.attribute_is_builtin, hpos]
    · by_cases hsup : c.attribute_domain_with_type_supported domain data_type = true
      · cases domain <;> simp_all [MeshComponent.attribute_try_create,
          MeshComponent.attribute_is_builtin, Mesh.domain_store]
      · simp [MeshComponent.attribute_try_create, MeshComponent.attribute_is_builtin, hpos,
          hsup]
  · intro mesh hm hdom hcont
    subst hdom
    by_cases hpos : attribute_name = "Position"
    · simp [MeshComponent.attribute_try_create, MeshComponent.attribute_is_builtin, hpos]
    · by_cases hsup : c.attribute_domain_with_type_supported .ATTR_DOMAIN_VERTEX data_type
          = true
      · by_cases hhas : custom_data_has_layer_with_name mesh.vdata attribute_name = true <;>
          simp_all [MeshComponent.attribute_try_create, MeshComponent.attribute_is_builtin]
      · simp [MeshComponent.attribute_try_create, MeshComponent.attribute_is_builtin, hpos,
          hsup]
  · intro p hp hhas
    by_cases hpos : attribute_name = "Position"
    · simp [PointCloudComponent.attribute_try_create,
        PointCloudComponent.attribute_is_builtin, hpos]
    · by_cases hsup : pcc.attribute_domain_with_type_supported domain data_type = true <;>
        simp [PointCloudComponent.attribute_try_create,
          PointCloudComponent.attribute_is_builtin, hpos, hsup, hp, hhas]
  · intro mesh cd hpos hsup hm hst hhas hnvg
    cases domain <;>
      simp_all [MeshComponent.attribute_try_create, MeshComponent.attribute_is_builtin,
        Mesh.domain_store, Mesh.with_domain_store, Mesh.domain_element_count,
        MeshComponent.attribute_domain_with_type_supported,
        MeshComponent.attribute_domain_supported]
  · intro p hpos hsup hp hhas
    simp_all [PointCloudComponent.attribute_try_create,
      PointCloudComponent.attribute_is_builtin]

/-- Witness for C8: creating "foo" on the Edge domain of the sample mesh
(which has a registered vertex group "grp" but empty stores) succeeds and
appends the default-initialized float column to the edge store. -/
theorem C8_create_conditions_witness :
    ("foo" ≠ "Position"
      ∧ mcSample.attribute_domain_with_type_supported .ATTR_DOMAIN_EDGE .CD_PROP_FLOAT = true)
    ∧ mcSample.attribute_try_create "foo" .ATTR_DOMAIN_EDGE .CD_PROP_FLOAT
        = (⟨some (Mesh.with_domain_store
              ⟨2, 0, 0, 0, [⟨(1, 2, 3)⟩, ⟨(4, 5, 6)⟩], [⟨[]⟩, ⟨[]⟩], ⟨[]⟩, ⟨[]⟩, ⟨[]⟩, ⟨[]⟩⟩
              .ATTR_DOMAIN_EDGE
              (CustomData_add_layer_named ⟨[]⟩ .CD_PROP_FLOAT 0 "foo")),
            [("grp", 0)]⟩, true) :=
  ⟨⟨by decide, by decide⟩,
    (C8_create_conditions mcSample pcSample "foo" .ATTR_DOMAIN_EDGE .CD_PROP_FLOAT).2.2.2.2.2.2.2.2.1
      ⟨2, 0, 0, 0, [⟨(1, 2, 3)⟩, ⟨(4, 5, 6)⟩], [⟨[]⟩, ⟨[]⟩], ⟨[]⟩, ⟨[]⟩, ⟨[]⟩, ⟨[]⟩⟩ ⟨[]⟩
      (by decide) (by decide) rfl rfl (by decide) (by simp)⟩

lemma find_bind_layer_none_iff (layers : List CustomDataLayer) (attribute_name : String)
    (domain : AttributeDomain) (size : Nat) :
    ((layers.find? (supported_layer_match attribute_name)).bind
        (layer_array_attribute domain size) = none
      ↔ layers.find? (supported_layer_match attribute_name) = none) := by
  cases hf : layers.find? (supported_layer_match attribute_name) with
  | none => simp
  | some l =>
      have hp := List.find?_some hf
      simp only [supported_layer_match, Bool.and_eq_true] at hp
      rcases Option.isSome_iff_exists.mp hp.2 with ⟨cpp, hcpp⟩
      simp [layer_array_attribute, hcpp]

lemma map_lookup_default_eq_of_not_contains (entries : List (String × Int)) (key : String)
    (h : map_contains entries key = false) :
    map_lookup_default entries key (-1) = -1 := by
  unfold map_lookup_default
  cases hf : entries.find? (fun p => decide (p.1 = key)) with
  | none => rfl
  | some p =>
      have hp := List.find?_some hf
      have : map_contains entries key = true := by
        unfold map_contains
        exact List.any_eq_true.mpr ⟨p, List.mem_of_find?_eq_some hf, hp⟩
      rw [this] at h
      cases h

/-- Decomposition of a failed mesh write lookup into the failure of every
stage of the precedence chain. -/
lemma mesh_try_get_for_write_none_parts (c : MeshComponent) (mesh : Mesh)
    (attribute_name : String) (hm : c.mesh = some mesh)
    (hnone : c.attribute_try_get_for_write attribute_name = none) :
    attribute_name ≠ "Position"
    ∧ mesh.ldata.layers.find? (supported_layer_match attribute_name) = none
    ∧ ¬ 0 ≤ map_lookup_default c.vertex_group_names attribute_name (-1)
    ∧ mesh.vdata.layers.find? (supported_layer_match attribute_name) = none
    ∧ mesh.edata.layers.find? (supported_layer_match attribute_name) = none
    ∧ mesh.pdata.layers.find? (supported_layer_match attribute_name) = none := by
  by_cases hpos : attribute_name = "Position"
  · simp [MeshComponent.attribute_try_get_for_write, hm, hpos] at hnone
  · simp only [MeshComponent.attribute_try_get_for_write, hm, hpos, if_false,
      write_attribute_from_custom_data_eq_read, read_attribute_from_custom_data_eq_find] at hnone
    refine ⟨hpos, ?_⟩
    cases hcorner : (mesh.ldata.layers.find? (supported_layer_match attribute_name)).bind
        (layer_array_attribute .ATTR_DOMAIN_CORNER mesh.totloop) with
    | some a => simp [hcorner] at hnone
    | none =>
        simp only [hcorner] at hnone
        refine ⟨(find_bind_layer_none_iff _ _ _ _).mp hcorner, ?_⟩
        by_cases hvgi : 0 ≤ map_lookup_default c.vertex_group_names attribute_name (-1)
        · simp [hvgi] at hnone
        · simp only [hvgi, if_false] at hnone
          refine ⟨hvgi, ?_⟩
          cases hvert : (mesh.vdata.layers.find? (supported_layer_match attribute_name)).bind
              (layer_array_attribute .ATTR_DOMAIN_VERTEX mesh.totvert) with
          | some a => simp [hvert] at hnone
          | none =>
              simp only [hvert] at hnone
              refine ⟨(find_bind_layer_none_iff _ _ _ _).mp hvert, ?_⟩
              cases hedge : (mesh.edata.layers.find? (supported_layer_match attribute_name)).bind
                  (layer_array_attribute .ATTR_DOMAIN_EDGE mesh.totedge) with
              | some a => simp [hedge] at hnone
              | none =>
                  simp only [hedge] at hnone
                  refine ⟨(find_bind_layer_none_iff _ _ _ _).mp hedge, ?_⟩
                  cases hpoly :
                      (mesh.pdata.layers.find? (supported_layer_match attribute_name)).bind
                        (layer_array_attribute .ATTR_DOMAIN_POLYGON mesh.totpoly) with
                  | some a => simp [hpoly] at hnone
                  | none => exact (find_bind_layer_none_iff _ _ _ _).mp hpoly

/-- After a successful create on a component whose write lookup for the
name failed, re-fetching for write finds exactly the created column: a
handle of the requested domain and element type. -/
lemma mesh_refetch_after_create (c c2 : MeshComponent) (attribute_name : String)
    (domain : AttributeDomain) (data_type : CDType) (cpp : CPPType)
    (hcpp : custom_data_type_to_cpp_type data_type = some cpp)
    (hnone : c.attribute_try_get_for_write attribute_name = none)
    (hcreate : c.attribute_try_create attribute_name domain data_type = (c2, true)) :
    ∃ a2 : WriteAttribute, c2.attribute_try_get_for_write attribute_name = some a2
      ∧ a2.domain = domain ∧ a2.cpp_type = cpp := by
  by_cases hpos : attribute_name = "Position"
  · simp [MeshComponent.attribute_try_create, MeshComponent.attribute_is_builtin, hpos]
      at hcreate
  by_cases hsup : c.attribute_domain_with_type_supported domain data_type = true
  case neg =>
    simp [MeshComponent.attribute_try_create, MeshComponent.attribute_is_builtin, hpos, hsup]
      at hcreate
  cases hm : c.mesh with
  | none =>
      simp [MeshComponent.attribute_try_create, MeshComponent.attribute_is_builtin, hpos,
        hsup, hm] at hcreate
  | some mesh =>
      obtain ⟨hpos2, hld, hvgi, hvd, hed, hpd⟩ :=
        mesh_try_get_for_write_none_parts c mesh attribute_name hm hnone
      have hnew : ∀ sz : Nat, List.find? (supported_layer_match attribute_name)
          [⟨attribute_name, data_type, List.replicate sz (custom_data_default_value data_type)⟩]
          = some ⟨attribute_name, data_type,
              List.replicate sz (custom_data_default_value data_type)⟩ :=
        fun sz => List.find?_cons_of_pos [] (by simp [supported_layer_match, hcpp])
      cases domain with
      | ATTR_DOMAIN_POINT =>
          simp [MeshComponent.attribute_domain_with_type_supported,
            MeshComponent.attribute_domain_supported] at hsup
      | ATTR_DOMAIN_CORNER =>
          by_cases hhas : custom_data_has_layer_with_name mesh.ldata attribute_name = true
          · simp [MeshComponent.attribute_try_create, MeshComponent.attribute_is_builtin,
              hpos, hsup, hm, hhas] at hcreate
          · simp only [MeshComponent.attribute_try_create, MeshComponent.attribute_is_builtin,
              hpos, decide_False, Bool.false_eq_true, if_false, hsup, Bool.not_true, hm,
              hhas, Prod.mk.injEq, and_true] at hcreate
            subst hcreate
            refine ⟨⟨.ATTR_DOMAIN_CORNER, cpp, mesh.totloop,
              .arrayData (List.replicate mesh.totloop (custom_data_default_value data_type))⟩,
              ?_, rfl, rfl⟩
            simp [MeshComponent.attribute_try_get_for_write, hpos,
              write_attribute_from_custom_data_eq_read,
              read_attribute_from_custom_data_eq_find, CustomData_add_layer_named,
              List.find?_append, hld, hnew mesh.totloop, layer_array_attribute, hcpp]
      | ATTR_DOMAIN_VERTEX =>
          by_cases hhas : custom_data_has_layer_with_name mesh.vdata attribute_name = true
          · simp [MeshComponent.attribute_try_create, MeshComponent.attribute_is_builtin,
              hpos, hsup, hm, hhas] at hcreate
          · by_cases hcont : map_contains c.vertex_group_names attribute_name = true
            · simp [MeshComponent.attribute_try_create, MeshComponent.attribute_is_builtin,
                hpos, hsup, hm, hhas, hcont] at hcreate
            · simp only [MeshComponent.attribute_try_create,
                MeshComponent.attribute_is_builtin, hpos, decide_False, Bool.false_eq_true,
                if_false, hsup, Bool.not_true, hm, hhas, hcont, Prod.mk.injEq, and_true]
                at hcreate
              subst hcreate
              refine ⟨⟨.ATTR_DOMAIN_VERTEX, cpp, mesh.totvert,
                .arrayData (List.replicate mesh.totvert (custom_data_default_value data_type))⟩,
                ?_, rfl, rfl⟩
              simp [MeshComponent.attribute_try_get_for_write, hpos,
                write_attribute_from_custom_data_eq_read,
                read_attribute_from_custom_data_eq_find, CustomData_add_layer_named,
                List.find?_append, hld, hvd, hvgi, hnew mesh.totvert, layer_array_attribute,
                hcpp]
      | ATTR_DOMAIN_EDGE =>
          by_cases hhas : custom_data_has_layer_with_name mesh.edata attribute_name = true
          · simp [MeshComponent.attribute_try_create, MeshComponent.attribute_is_builtin,
              hpos, hsup, hm, hhas] at hcreate
          · simp only [MeshComponent.attribute_try_create, MeshComponent.attribute_is_builtin,
              hpos, decide_False, Bool.false_eq_true, if_false, hsup, Bool.not_true, hm,
              hhas, Prod.mk.injEq, and_true] at hcreate
            subst hcreate
            refine ⟨⟨.ATTR_DOMAIN_EDGE, cpp, mesh.totedge,
              .arrayData (List.replicate mesh.totedge (custom_data_default_value data_type))⟩,
              ?_, rfl, rfl⟩
            simp [MeshComponent.attribute_try_get_for_write, hpos,
              write_attribute_from_custom_data_eq_read,
              read_attribute_from_custom_data_eq_find, CustomData_add_layer_named,
              List.find?_append, hld, hvd, hed, hvgi, hnew mesh.totedge,
              layer_array_attribute, hcpp]
      | ATTR_DOMAIN_POLYGON =>
          by_cases hhas : custom_data_has_layer_with_name mesh.pdata attribute_name = true
          · simp [MeshComponent.attribute_try_create, MeshComponent.attribute_is_builtin,
              hpos, hsup, hm, hhas] at hcreate
          · simp only [MeshComponent.attribute_try_create, MeshComponent.attribute_is_builtin,
              hpos, decide_False, Bool.false_eq_true, if_false, hsup, Bool.not_true, hm,
              hhas, Prod.mk.injEq, and_true] at hcreate
            subst hcreate
            refine ⟨⟨.ATTR_DOMAIN_POLYGON, cpp, mesh.totpoly,
              .arrayData (List.replicate mesh.totpoly (custom_data_default_value data_type))⟩,
              ?_, rfl, rfl⟩
            simp [MeshComponent.attribute_try_get_for_write, hpos,
              write_attribute_from_custom_data_eq_read,
              read_attribute_from_custom_data_eq_find, CustomData_add_layer_named,
              List.find?_append, hld, hvd, hed, hpd, hvgi, hnew mesh.totpoly,
              layer_array_attribute, hcpp]

lemma find_supported_after_delete_none (cd : CustomData) (attribute_name : String)
    (h : cd.layers.countP (fun l => decide (l.name = attribute_name)) ≤ 1) :
    (delete_named_custom_data_layer cd attribute_name).1.layers.find?
      (supported_layer_match attribute_name) = none := by
  unfold delete_named_custom_data_layer
  rw [delete_named_layers_eq]
  apply List.find?_eq_none.mpr
  intro l hl hmatch
  have hne := eraseP_no_match_of_countP_le_one
    (fun l => decide (l.name = attribute_name)) cd.layers h l hl
  simp only [supported_layer_match, Bool.and_eq_true, decide_eq_true_eq] at hmatch
  simp only [decide_eq_false_iff_not] at hne
  exact hne hmatch.1

/-- The name-uniqueness invariant of a mesh component for one name: at
most one layer of the name per domain store, at most one registry entry. -/
def MeshComponent.name_unique (c : MeshComponent) (attribute_name : String) : Prop :=
  match c.mesh with
  | none => True
  | some mesh =>
      mesh.ldata.layers.countP (fun l => decide (l.name = attribute_name)) ≤ 1
      ∧ mesh.vdata.layers.countP (fun l => decide (l.name = attribute_name)) ≤ 1
      ∧ mesh.edata.layers.countP (fun l => decide (l.name = attribute_name)) ≤ 1
      ∧ mesh.pdata.layers.countP (fun l => decide (l.name = attribute_name)) ≤ 1
      ∧ c.vertex_group_names.countP (fun p => decide (p.1 = attribute_name)) ≤ 1

/-- The name-uniqueness invariant of a point-cloud component. -/
def PointCloudComponent.name_unique (c : PointCloudComponent)
    (attribute_name : String) : Prop :=
  match c.pointcloud with
  | none => True
  | some p => p.pdata.layers.countP (fun l => decide (l.name = attribute_name)) ≤ 1

/-- After a successful mesh delete (names unique per store), the write
lookup for the deleted name fails: every store is purged and the group, if
registered, deregistered. -/
lemma mesh_try_get_for_write_after_delete (c c2 : MeshComponent) (attribute_name : String)
    (huniq : c.name_unique attribute_name)
    (hdel : c.attribute_try_delete attribute_name = (c2, true)) :
    c2.attribute_try_get_for_write attribute_name = none := by
  by_cases hpos : attribute_name = "Position"
  · simp [MeshComponent.attribute_try_delete, MeshComponent.attribute_is_builtin, hpos] at hdel
  cases hm : c.mesh with
  | none =>
      simp [MeshComponent.attribute_try_delete, MeshComponent.attribute_is_builtin, hpos, hm]
        at hdel
  | some mesh =>
      simp only [MeshComponent.name_unique, hm] at huniq
      obtain ⟨hld, hvd, hed, hpd, hreg⟩ := huniq
      have hneg1 : ¬ (0 : Int) ≤ -1 := by omega
      by_cases hvgi : map_lookup_default c.vertex_group_names attribute_name (-1) = -1
      · simp only [MeshComponent.attribute_try_delete, MeshComponent.attribute_is_builtin,
          hpos, decide_False, Bool.false_eq_true, if_false, hm, hvgi, ne_eq,
          not_true_eq_false, ite_false, Prod.mk.injEq, and_true] at hdel
        subst hdel
        simp [MeshComponent.attribute_try_get_for_write, hpos,
          write_attribute_from_custom_data_eq_read, read_attribute_from_custom_data_eq_find,
          find_supported_after_delete_none mesh.ldata attribute_name hld,
          find_supported_after_delete_none mesh.vdata attribute_name hvd,
          find_supported_after_delete_none mesh.edata attribute_name hed,
          find_supported_after_delete_none mesh.pdata attribute_name hpd,
          hvgi, hneg1]
      · simp only [MeshComponent.attribute_try_delete, MeshComponent.attribute_is_builtin,
          hpos, decide_False, Bool.false_eq_true, if_false, hm, hvgi, ne_eq,
          not_false_eq_true, ite_true, Prod.mk.injEq, and_true] at hdel
        subst hdel
        have hnc := map_contains_remove_false c.vertex_group_names attribute_name hreg
        have hlk := map_lookup_default_eq_of_not_contains
          (map_remove c.vertex_group_names attribute_name) attribute_name hnc
        simp [MeshComponent.attribute_try_get_for_write, hpos,
          write_attribute_from_custom_data_eq_read, read_attribute_from_custom_data_eq_find,
          find_supported_after_delete_none mesh.ldata attribute_name hld,
          find_supported_after_delete_none mesh.vdata attribute_name hvd,
          find_supported_after_delete_none mesh.edata attribute_name hed,
          find_supported_after_delete_none mesh.pdata attribute_name hpd,
          hlk, hneg1]

/-- Point-cloud analogue of `mesh_refetch_after_create`. -/
lemma pc_refetch_after_create (c c2 : PointCloudComponent) (attribute_name : String)
    (domain : AttributeDomain) (data_type : CDType) (cpp : CPPType)
    (hcpp : custom_data_type_to_cpp_type data_type = some cpp)
    (hnone : c.attribute_try_get_for_write attribute_name = none)
    (hcreate : c.attribute_try_create attribute_name domain data_type = (c2, true)) :
    ∃ a2 : WriteAttribute, c2.attribute_try_get_for_write attribute_name = some a2
      ∧ a2.domain = domain ∧ a2.cpp_type = cpp := by
  by_cases hpos : attribute_name = "Position"
  · simp [PointCloudComponent.attribute_try_create, PointCloudComponent.attribute_is_builtin,
      hpos] at hcreate
  by_cases hsup : c.attribute_domain_with_type_supported domain data_type = true
  case neg =>
    simp [PointCloudComponent.attribute_try_create, PointCloudComponent.attribute_is_builtin,
      hpos, hsup] at hcreate
  have hdom : domain = .ATTR_DOMAIN_POINT := by
    simp only [PointCloudComponent.attribute_domain_with_type_supported,
      Bool.and_eq_true, decide_eq_true_eq] at hsup
    exact hsup.1
  subst hdom
  cases hp : c.pointcloud with
  | none =>
      simp [PointCloudComponent.attribute_try_create, PointCloudComponent.attribute_is_builtin,
        hpos, hsup, hp] at hcreate
  | some p =>
      have hpd : p.pdata.layers.find? (supported_layer_match attribute_name) = none := by
        simp only [PointCloudComponent.attribute_try_get_for_write, hp,
          write_attribute_from_custom_data_eq_read,
          read_attribute_from_custom_data_eq_find] at hnone
        exact (find_bind_layer_none_iff _ _ _ _).mp hnone
      by_cases hhas : custom_data_has_layer_with_name p.pdata attribute_name = true
      · simp [PointCloudComponent.attribute_try_create,
          PointCloudComponent.attribute_is_builtin, hpos, hsup, hp, hhas] at hcreate
      · simp only [PointCloudComponent.attribute_try_create,
          PointCloudComponent.attribute_is_builtin, hpos, decide_False, Bool.false_eq_true,
          if_false, hsup, Bool.not_true, hp, hhas, Prod.mk.injEq, and_true] at hcreate
        subst hcreate
        have hnew : List.find? (supported_layer_match attribute_name)
            [⟨attribute_name, data_type,
              List.replicate p.totpoint (custom_data_default_value data_type)⟩]
            = some ⟨attribute_name, data_type,
                List.replicate p.totpoint (custom_data_default_value data_type)⟩ :=
          List.find?_cons_of_pos [] (by simp [supported_layer_match, hcpp])
        refine ⟨⟨.ATTR_DOMAIN_POINT, cpp, p.totpoint,
          .arrayData (List.replicate p.totpoint (custom_data_default_value data_type))⟩,
          ?_, rfl, rfl⟩
        simp [PointCloudComponent.attribute_try_get_for_write,
          write_attribute_from_custom_data_eq_read, read_attribute_from_custom_data_eq_find,
          CustomData_add_layer_named, List.find?_append, hpd, hnew, layer_array_attribute,
          hcpp]

/-- Point-cloud analogue of `mesh_try_get_for_write_after_delete`. -/
lemma pc_try_get_for_write_after_delete (c c2 : PointCloudComponent)
    (attribute_name : String)
    (huniq : c.name_unique attribute_name)
    (hdel : c.attribute_try_delete attribute_name = (c2, true)) :
    c2.attribute_try_get_for_write attribute_name = none := by
  by_cases hpos : attribute_name = "Position"
  · simp [PointCloudComponent.attribute_try_delete, PointCloudComponent.attribute_is_builtin,
      hpos] at hdel
  cases hp : c.pointcloud with
  | none =>
      simp [PointCloudComponent.attribute_try_delete, PointCloudComponent.attribute_is_builtin,
        hpos, hp] at hdel
  | some p =>
      simp only [PointCloudComponent.name_unique, hp] at huniq
      simp only [PointCloudComponent.attribute_try_delete,
        PointCloudComponent.attribute_is_builtin, hpos, decide_False, Bool.false_eq_true,
        if_false, hp, Prod.mk.injEq, and_true] at hdel
      subst hdel
      simp [PointCloudComponent.attribute_try_get_for_write,
        write_attribute_from_custom_data_eq_read, read_attribute_from_custom_data_eq_find,
        find_supported_after_delete_none p.pdata attribute_name huniq]

/-- If the create-and-fetch tail produced a handle on a mesh whose write
lookup had failed, a subsequent `attribute_try_ensure_for_write` call with
the same arguments takes the early-return path on the same handle. -/
lemma mesh_create_fetch_stable (c0 c1 : MeshComponent) (attribute_name : String)
    (domain : AttributeDomain) (data_type : CDType) (cpp : CPPType) (a1 : WriteAttribute)
    (hcpp : custom_data_type_to_cpp_type data_type = some cpp)
    (hnone : c0.attribute_try_get_for_write attribute_name = none)
    (hfetch : attribute_ensure_create_and_fetch MeshComponent.ops c0 attribute_name domain
        data_type = (c1, some a1)) :
    attribute_try_ensure_for_write MeshComponent.ops c1 attribute_name domain data_type
      = (c1, some a1) := by
  unfold attribute_ensure_create_and_fetch at hfetch
  by_cases hsup : MeshComponent.ops.attribute_domain_with_type_supported c0 domain data_type
      = true
  case neg => simp [hsup] at hfetch
  cases hcr : MeshComponent.ops.attribute_try_create c0 attribute_name domain data_type with
  | mk c2 b =>
      cases b with
      | false => simp [hsup, hcr] at hfetch
      | true =>
          simp only [hsup, Bool.not_true, Bool.false_eq_true, if_false, hcr, Prod.mk.injEq]
            at hfetch
          obtain ⟨hc21, hga⟩ := hfetch
          obtain ⟨a2, hga2, hdom, hct⟩ := mesh_refetch_after_create c0 c2 attribute_name
            domain data_type cpp hcpp hnone (by simpa [MeshComponent.ops] using hcr)
          have h3 : MeshComponent.ops.attribute_try_get_for_write c2 attribute_name
              = some a2 := by simpa [MeshComponent.ops] using hga2
          have ha12 : a2 = a1 := by
            have h4 := hga.symm.trans h3
            have h5 : a1 = a2 := by simpa using h4
            exact h5.symm
          rw [← hc21, ← ha12]
          unfold attribute_try_ensure_for_write
          rw [hcpp]
          dsimp only
          rw [h3]
          dsimp only
          rw [if_pos ⟨hdom, hct⟩]

/-- Mesh instance of C9's stability property: once
`attribute_try_ensure_for_write` returns a handle, calling it again with
identical arguments returns the same state and the same handle. -/
lemma mesh_ensure_stable (c c1 : MeshComponent) (attribute_name : String)
    (domain : AttributeDomain) (data_type : CDType) (cpp : CPPType) (a1 : WriteAttribute)
    (hcpp : custom_data_type_to_cpp_type data_type = some cpp)
    (huniq : c.name_unique attribute_name)
    (hfirst : attribute_try_ensure_for_write MeshComponent.ops c attribute_name domain
        data_type = (c1, some a1)) :
    attribute_try_ensure_for_write MeshComponent.ops c1 attribute_name domain data_type
      = (c1, some a1) := by
  unfold attribute_try_ensure_for_write at hfirst
  rw [hcpp] at hfirst
  dsimp only at hfirst
  cases hga : MeshComponent.ops.attribute_try_get_for_write c attribute_name with
  | some a =>
      rw [hga] at hfirst
      dsimp only at hfirst
      by_cases hmatch : a.domain = domain ∧ a.cpp_type = cpp
      · rw [if_pos hmatch] at hfirst
        have hc : c = c1 ∧ a = a1 := by simpa using hfirst
        rw [← hc.1, ← hc.2]
        unfold attribute_try_ensure_for_write
        rw [hcpp]
        dsimp only
        rw [hga]
        dsimp only
        rw [if_pos hmatch]
      · rw [if_neg hmatch] at hfirst
        cases hd : MeshComponent.ops.attribute_try_delete c attribute_name with
        | mk c0 b =>
            cases b with
            | false => simp [hd] at hfirst
            | true =>
                simp only [hd, Bool.not_true, Bool.false_eq_true, if_false] at hfirst
                have hnone := mesh_try_get_for_write_after_delete c c0 attribute_name huniq
                  (by simpa [MeshComponent.ops] using hd)
                exact mesh_create_fetch_stable c0 c1 attribute_name domain data_type cpp a1
                  hcpp hnone hfirst
  | none =>
      rw [hga] at hfirst
      exact mesh_create_fetch_stable c c1 attribute_name domain data_type cpp a1 hcpp
        (by simpa [MeshComponent.ops] using hga) hfirst

/-- Point-cloud analogue of `mesh_create_fetch_stable`. -/
lemma pc_create_fetch_stable (c0 c1 : PointCloudComponent) (attribute_name : String)
    (domain : AttributeDomain) (data_type : CDType) (cpp : CPPType) (a1 : WriteAttribute)
    (hcpp : custom_data_type_to_cpp_type data_type = some cpp)
    (hnone : c0.attribute_try_get_for_write attribute_name = none)
    (hfetch : attribute_ensure_create_and_fetch PointCloudComponent.ops c0 attribute_name
        domain data_type = (c1, some a1)) :
    attribute_try_ensure_for_write PointCloudComponent.ops c1 attribute_name domain data_type
      = (c1, some a1) := by
  unfold attribute_ensure_create_and_fetch at hfetch
  by_cases hsup : PointCloudComponent.ops.attribute_domain_with_type_supported c0 domain
      data_type = true
  case neg => simp [hsup] at hfetch
  cases hcr : PointCloudComponent.ops.attribute_try_create c0 attribute_name domain
      data_type with
  | mk c2 b =>
      cases b with
      | false => simp [hsup, hcr] at hfetch
      | true =>
          simp only [hsup, Bool.not_true, Bool.false_eq_true, if_false, hcr, Prod.mk.injEq]
            at hfetch
          obtain ⟨hc21, hga⟩ := hfetch
          obtain ⟨a2, hga2, hdom, hct⟩ := pc_refetch_after_create c0 c2 attribute_name
            domain data_type cpp hcpp hnone (by simpa [PointCloudComponent.ops] using hcr)
          have h3 : PointCloudComponent.ops.attribute_try_get_for_write c2 attribute_name
              = some a2 := by simpa [PointCloudComponent.ops] using hga2
          have ha12 : a2 = a1 := by
            have h4 := hga.symm.trans h3
            have h5 : a1 = a2 := by simpa using h4
            exact h5.symm
          rw [← hc21, ← ha12]
          unfold attribute_try_ensure_for_write
          rw [hcpp]
          dsimp only
          rw [h3]
          dsimp only
          rw [if_pos ⟨hdom, hct⟩]

/-- Point-cloud instance of C9's stability property. -/
lemma pc_ensure_stable (c c1 : PointCloudComponent) (attribute_name : String)
    (domain : AttributeDomain) (data_type : CDType) (cpp : CPPType) (a1 : WriteAttribute)
    (hcpp : custom_data_type_to_cpp_type data_type = some cpp)
    (huniq : c.name_unique attribute_name)
    (hfirst : attribute_try_ensure_for_write PointCloudComponent.ops c attribute_name domain
        data_type = (c1, some a1)) :
    attribute_try_ensure_for_write PointCloudComponent.ops c1 attribute_name domain data_type
      = (c1, some a1) := by
  unfold attribute_try_ensure_for_write at hfirst
  rw [hcpp] at hfirst
  dsimp only at hfirst
  cases hga : PointCloudComponent.ops.attribute_try_get_for_write c attribute_name with
  | some a =>
      rw [hga] at hfirst
      dsimp only at hfirst
      by_cases hmatch : a.domain = domain ∧ a.cpp_type = cpp
      · rw [if_pos hmatch] at hfirst
        have hc : c = c1 ∧ a = a1 := by simpa using hfirst
        rw [← hc.1, ← hc.2]
        unfold attribute_try_ensure_for_write
        rw [hcpp]
        dsimp only
        rw [hga]
        dsimp only
        rw [if_pos hmatch]
      · rw [if_neg hmatch] at hfirst
        cases hd : PointCloudComponent.ops.attribute_try_delete c attribute_name with
        | mk c0 b =>
            cases b with
            | false => simp [hd] at hfirst
            | true =>
                simp only [hd, Bool.not_true, Bool.false_eq_true, if_false] at hfirst
                have hnone := pc_try_get_for_write_after_delete c c0 attribute_name huniq
                  (by simpa [PointCloudComponent.ops] using hd)
                exact pc_create_fetch_stable c0 c1 attribute_name domain data_type cpp a1
                  hcpp hnone hfirst
  | none =>
      rw [hga] at hfirst
      exact pc_create_fetch_stable c c1 attribute_name domain data_type cpp a1 hcpp
        (by simpa [PointCloudComponent.ops] using hga) hfirst

/-- C9: `attribute_try_ensure_for_write` returns an existing write handle
with the exact requested domain and element type as-is, leaving the state
unchanged; deletes a mismatched existing handle first, propagating a
failed delete as an empty result; returns empty when (domain, type) is
unsupported; otherwise creates the attribute and re-fetches it for write;
and (on both concrete components, under the name-uniqueness invariant) a
second call with identical arguments returns the same state and the same
handle as the first. -/
theorem C9_ensure_for_write_protocol {σ : Type} (ops : GeometryComponentOps σ) (s : σ)
    (attribute_name : String) (domain : AttributeDomain) (data_type : CDType) (cpp : CPPType)
    (hcpp : custom_data_type_to_cpp_type data_type = some cpp) :
    (∀ a, ops.attribute_try_get_for_write s attribute_name = some a →
        a.domain = domain → a.cpp_type = cpp →
        attribute_try_ensure_for_write ops s attribute_name domain data_type = (s, some a))
    ∧ (∀ a s2, ops.attribute_try_get_for_write s attribute_name = some a →
        ¬(a.domain = domain ∧ a.cpp_type = cpp) →
        ops.attribute_try_delete s attribute_name = (s2, false) →
        attribute_try_ensure_for_write ops s attribute_name domain data_type = (s2, none))
    ∧ (∀ a s2, ops.attribute_try_get_for_write s attribute_name = some a →
        ¬(a.domain = domain ∧ a.cpp_type = cpp) →
        ops.attribute_try_delete s attribute_name = (s2, true) →
        attribute_try_ensure_for_write ops s attribute_name domain data_type
          = attribute_ensure_create_and_fetch ops s2 attribute_name domain data_type)
    ∧ (ops.attribute_try_get_for_write s attribute_name = none →
        attribute_try_ensure_for_write ops s attribute_name domain data_type
          = attribute_ensure_create_and_fetch ops s attribute_name domain data_type)
    ∧ (ops.attribute_domain_with_type_supported s domain data_type = false →
        attribute_ensure_create_and_fetch ops s attribute_name domain data_type = (s, none))
    ∧ (∀ s3, ops.attribute_domain_with_type_supported s domain data_type = true →
        ops.attribute_try_create s attribute_name domain data_type = (s3, false) →
        attribute_ensure_create_and_fetch ops s attribute_name domain data_type = (s3, none))
    ∧ (∀ s3, ops.attribute_domain_with_type_supported s domain data_type = true →
        ops.attribute_try_create s attribute_name domain data_type = (s3, true) →
        attribute_ensure_create_and_fetch ops s attribute_name domain data_type
          = (s3, ops.attribute_try_get_for_write s3 attribute_name))
    ∧ (∀ (c c1 : MeshComponent) (a1 : WriteAttribute),
        c.name_unique attribute_name →
        attribute_try_ensure_for_write MeshComponent.ops c attribute_name domain data_type
          = (c1, some a1) →
        attribute_try_ensure_for_write MeshComponent.ops c1 attribute_name domain data_type
          = (c1, some a1))
    ∧ (∀ (c c1 : PointCloudComponent) (a1 : WriteAttribute),
        c.name_unique attribute_name →
        attribute_try_ensure_for_write PointCloudComponent.ops c attribute_name domain
          data_type = (c1, some a1) →
        attribute_try_ensure_for_write PointCloudComponent.ops c1 attribute_name domain
          data_type = (c1, some a1)) := by
  refine ⟨?_, ?_, ?_, ?_, ?_, ?_, ?_, ?_, ?_⟩
  · intro a hga hdom hct
    unfold attribute_try_ensure_for_write
    rw [hcpp]
    dsimp only
    rw [hga]
    dsimp only
    rw [if_pos ⟨hdom, hct⟩]
  · intro a s2 hga hmatch hd
    unfold attribute_try_ensure_for_write
    rw [hcpp]
    dsimp only
    rw [hga]
    dsimp only
    rw [if_neg hmatch]
    simp [hd]
  · intro a s2 hga hmatch hd
    unfold attribute_try_ensure_for_write
    rw [hcpp]
    dsimp only
    rw [hga]
    dsimp only
    rw [if_neg hmatch]
    simp [hd]
  · intro hga
    unfold attribute_try_ensure_for_write
    rw [hcpp]
    dsimp only
    rw [hga]
  · intro hsup
    unfold attribute_ensure_create_and_fetch
    simp [hsup]
  · intro s3 hsup hcr
    unfold attribute_ensure_create_and_fetch
    simp [hsup, hcr]
  · intro s3 hsup hcr
    unfold attribute_ensure_create_and_fetch
    simp [hsup, hcr]
  · intro c c1 a1 huniq hfirst
    exact mesh_ensure_stable c c1 attribute_name domain data_type cpp a1 hcpp huniq hfirst
  · intro c c1 a1 huniq hfirst
    exact pc_ensure_stable c c1 attribute_name domain data_type cpp a1 hcpp huniq hfirst

/-- The sample mesh component after `attribute_try_ensure_for_write` has
created the int32 column "foo" on the edge domain. -/
def mcEnsured : MeshComponent :=
  ⟨some ⟨2, 0, 0, 0, [⟨(1, 2, 3)⟩, ⟨(4, 5, 6)⟩], [⟨[]⟩, ⟨[]⟩], ⟨[]⟩,
      ⟨[⟨"foo", .CD_PROP_INT32, []⟩]⟩, ⟨[]⟩, ⟨[]⟩⟩, [("grp", 0)]⟩

/-- The handle returned over the created edge column. -/
def aEnsured : WriteAttribute := ⟨.ATTR_DOMAIN_EDGE, .int, 0, .arrayData []⟩

/-- Witness for C9: ensuring "foo" (int32, Edge) on the sample mesh
creates the column and yields a handle; the second identical call returns
the same state and handle. -/
theorem C9_ensure_for_write_protocol_witness :
    (custom_data_type_to_cpp_type .CD_PROP_INT32 = some .int
      ∧ MeshComponent.name_unique mcSample "foo"
      ∧ attribute_try_ensure_for_write MeshComponent.ops mcSample "foo" .ATTR_DOMAIN_EDGE
          .CD_PROP_INT32 = (mcEnsured, some aEnsured))
    ∧ attribute_try_ensure_for_write MeshComponent.ops mcEnsured "foo" .ATTR_DOMAIN_EDGE
        .CD_PROP_INT32 = (mcEnsured, some aEnsured) :=
  ⟨⟨rfl, by simp [MeshComponent.name_unique, mcSample], by decide⟩,
    (C9_ensure_for_write_protocol MeshComponent.ops mcSample "foo" .ATTR_DOMAIN_EDGE
        .CD_PROP_INT32 .int rfl).2.2.2.2.2.2.2.1 mcSample mcEnsured aEnsured
      (by simp [MeshComponent.name_unique, mcSample]) (by decide)⟩

end BlenderSpec
